import Mathlib

/-!
Shallow embedding of `plugins/modules/cli_tools.py` (the `cli_tools` Ansible
module of the `nccurry.openshift` collection), together with proofs of the
testable properties stated in its specification.

Modelling conventions:
* The filesystem is a flat association list from absolute path strings to
  nodes.  A node is a regular file (with content and mode), a directory, or a
  symbolic link (with its target string).  `os.path.isfile`/`islink`/`isdir`
  together test for the presence of any node, so `file_exists` is `isSome` of
  the lookup.
* File content is either raw bytes or a tar.gz archive; an archive is a list
  of (relative path, raw content) members, which is how `tarfile.extractall`
  materialises it under the extraction directory.
* Network access is a function from URL to a transport result: either a
  transport error (an exception inside `pool_manager.request`) or an HTTP
  response carrying status, reason and body.
* The module object's mutable `self._result['changed']` flag and the
  fail/exit behaviour of `fail_json` are modelled by threading a `ModState`
  through each step; `fail_json` aborts the invocation, which the `R.bind`
  combinator propagates.  `check_mode` is modelled as false (a normal run).
  As instrumentation, `ModState` also records the list of URLs for which an
  HTTP request was actually issued.
* `shutil.move` is modelled for regular-file sources, the only kind this
  module moves (the binary just extracted from the archive).
* `os.readlink` on a path that holds a non-symlink raises `OSError(EINVAL)`,
  which lands in the generic `except Exception` handler of `create_symlink`;
  on a missing path it raises `FileNotFoundError`, which the code swallows.
-/

inductive Content where
  | raw (data : String)
  | tarGz (entries : List (String × String))
deriving DecidableEq

inductive FSNode where
  | file (content : Content) (mode : Nat)
  | dir
  | symlink (target : String)
deriving DecidableEq

abbrev FS := List (String × FSNode)

def FS.lookup : FS → String → Option FSNode
  | [], _ => none
  | (q, n) :: rest, p => if p = q then some n else FS.lookup rest p

/-- Remove the entry at exactly `p` (the effect of `os.remove`/`os.unlink`). -/
def FS.remove (fs : FS) (p : String) : FS :=
  fs.filter fun e => !(e.1 == p)

/-- `pathUnder q p` holds when the path `p` lies strictly below the
directory path `q`. -/
def pathUnder (q p : String) : Bool :=
  List.isPrefixOf (q ++ "/").data p.data

/-- Remove the entry at `p` and every entry below it (the effect of
`shutil.rmtree`). -/
def FS.removeTree (fs : FS) (p : String) : FS :=
  fs.filter fun e => !(e.1 == p || pathUnder p e.1)

/-- Write the node `n` at path `p`, replacing any previous entry. -/
def FS.set (fs : FS) (p : String) (n : FSNode) : FS :=
  FS.remove fs p ++ [(p, n)]

/-- `CliToolsModule.file_exists`: `os.path.isfile(path) or os.path.islink(path)
or os.path.isdir(path)` — true exactly when some node is present. -/
def file_exists (fs : FS) (path : String) : Bool :=
  (FS.lookup fs path).isSome

structure HttpResponse where
  status : Nat
  reason : String
  body : Content
deriving DecidableEq

inductive NetResult where
  | ok (resp : HttpResponse)
  | error (exn : String)
deriving DecidableEq

abbrev Network := String → NetResult

/-- The module's running state: the filesystem, the accumulated
`self._result['changed']` flag, and (instrumentation) the URLs requested. -/
structure ModState where
  fs : FS
  changed : Bool
  requests : List String
deriving DecidableEq

/-- Outcome of a module step: normal continuation, or `fail_json` (which
aborts the invocation, carrying the result accumulated so far). -/
inductive R where
  | ok (s : ModState)
  | fail (msg : String) (s : ModState)
deriving DecidableEq

/-- Sequencing of module steps: a failure aborts everything after it. -/
def R.bind : R → (ModState → R) → R
  | .ok s, f => f s
  | .fail m s, _ => .fail m s

/-- The module state carried by an outcome (both `exit_json` and `fail_json`
report the accumulated result). -/
def R.state : R → ModState
  | .ok s => s
  | .fail _ s => s

def R.isOk : R → Bool
  | .ok _ => true
  | .fail _ _ => false

/-- `CliToolsModule.okd_install_tar_gz_url`. -/
def okd_install_tar_gz_url (okd_release : String) : String :=
  "https://github.com/openshift/okd/releases/download/" ++ okd_release ++
    "/openshift-install-linux-" ++ okd_release ++ ".tar.gz"

/-- `CliToolsModule.okd_oc_tar_gz_url`. -/
def okd_oc_tar_gz_url (okd_release : String) : String :=
  "https://github.com/openshift/okd/releases/download/" ++ okd_release ++
    "/openshift-client-linux-" ++ okd_release ++ ".tar.gz"

/-- `CliToolsModule.openshift_install_tar_gz_url`. -/
def openshift_install_tar_gz_url (ocp_release : String) : String :=
  "https://mirror.openshift.com/pub/openshift-v4/clients/ocp/" ++ ocp_release ++
    "/openshift-install-linux.tar.gz"

/-- `CliToolsModule.openshift_oc_install_tar_gz_url`. -/
def openshift_oc_install_tar_gz_url (ocp_release : String) : String :=
  "https://mirror.openshift.com/pub/openshift-v4/clients/ocp/" ++ ocp_release ++
    "/openshift-client-linux.tar.gz"

/-- Failure message of the non-200 branch of `download_file`. -/
def download_fail_msg (url : String) (status : Nat) (reason : String) : String :=
  "There was a problem downloading file at " ++ url ++ ": " ++
    toString status ++ " - " ++ reason

/-- Modelled `repr` of the `OSError(EINVAL)` that `os.readlink` raises on a
path holding a non-symlink. -/
def einval_msg (path : String) : String :=
  "OSError(22, Invalid argument): " ++ path

/-- Modelled `repr` of the exception `shutil.move` raises when the source is
missing. -/
def move_src_missing_msg (src : String) : String :=
  "FileNotFoundError(2, No such file or directory): " ++ src

/-- Modelled `repr` of the exception `tarfile.open`/`extractall` raises when
the archive is missing or not a valid tar.gz file. -/
def extract_fail_msg (tar_path : String) : String :=
  "ReadError(not a gzip file): " ++ tar_path

/-- `CliToolsModule.download_file`: skip if the target path exists; otherwise
mark changed, issue the request, fail on transport error or non-200 status,
else stream the body to `path`. -/
def download_file (path url : String) (net : Network) (s : ModState) : R :=
  if file_exists s.fs path then
    .ok s
  else
    let s1 : ModState := { s with changed := true, requests := s.requests ++ [url] }
    match net url with
    | .error exn => .fail exn s1
    | .ok resp =>
      if resp.status ≠ 200 then
        .fail (download_fail_msg url resp.status resp.reason) s1
      else
        .ok { s1 with fs := FS.set s1.fs path (.file resp.body 420) }

/-- `CliToolsModule.extract_tar_gz`: skip if the extraction directory exists;
otherwise mark changed and unpack every archive member below it, failing if
the archive cannot be opened. -/
def extract_tar_gz (tar_path extract_path : String) (s : ModState) : R :=
  if file_exists s.fs extract_path then
    .ok s
  else
    let s1 : ModState := { s with changed := true }
    match FS.lookup s1.fs tar_path with
    | some (.file (.tarGz entries) _) =>
      .ok { s1 with
              fs := entries.foldl
                (fun acc e => FS.set acc (extract_path ++ "/" ++ e.1) (.file (.raw e.2) 420))
                (FS.set s1.fs extract_path .dir) }
    | _ => .fail (extract_fail_msg tar_path) s1

/-- `CliToolsModule.delete_file`: no-op when the path is absent; otherwise
mark changed and `unlink` a symlink, `rmtree` a directory, or `remove` a
regular file. -/
def delete_file (path : String) (s : ModState) : R :=
  match FS.lookup s.fs path with
  | none => .ok s
  | some n =>
    let s1 : ModState := { s with changed := true }
    match n with
    | .symlink _ => .ok { s1 with fs := FS.remove s1.fs path }
    | .dir => .ok { s1 with fs := FS.removeTree s1.fs path }
    | .file _ _ => .ok { s1 with fs := FS.remove s1.fs path }

/-- `os.chmod(dest, 0o775)` on the node just moved into place. -/
def chmod775 : FSNode → FSNode
  | .file c _ => .file c 509
  | n => n

/-- `CliToolsModule.copy_executable`: skip if the destination exists;
otherwise mark changed, `shutil.move` the source onto the destination
(failing when the source is missing) and set mode 0o775. -/
def copy_executable (src dest : String) (s : ModState) : R :=
  if file_exists s.fs dest then
    .ok s
  else
    let s1 : ModState := { s with changed := true }
    match FS.lookup s1.fs src with
    | none => .fail (move_src_missing_msg src) s1
    | some n => .ok { s1 with fs := FS.set (FS.remove s1.fs src) dest (chmod775 n) }

/-- Second half of `CliToolsModule.create_symlink`, after `os.readlink`
produced `existing_target` (the empty string when the link was absent):
if the existing target differs, mark changed, remove any node at the link
path, and create the symlink. -/
def symlink_update (link target existing_target : String) (s : ModState) : R :=
  if existing_target ≠ target then
    let s1 : ModState := { s with changed := true }
    let fs1 := if file_exists s1.fs link then FS.remove s1.fs link else s1.fs
    .ok { s1 with fs := FS.set fs1 link (.symlink target) }
  else
    .ok s

/-- `CliToolsModule.create_symlink`: `os.readlink(link)` yields the existing
target for a symlink, raises `FileNotFoundError` (swallowed, leaving the
initial `""`) for a missing path, and raises `OSError(EINVAL)` (caught by the
generic handler, which calls `_fail`) for a regular file or directory. -/
def create_symlink (link target : String) (s : ModState) : R :=
  match FS.lookup s.fs link with
  | some (.file _ _) => .fail (einval_msg link) s
  | some .dir => .fail (einval_msg link) s
  | some (.symlink t) => symlink_update link target t s
  | none => symlink_update link target "" s

/-- One per-tool block of the `state == 'present'` arm of `process_state`.
Every such block in the source has exactly this shape: install the versioned
binary unless it already exists, optionally converge the unversioned symlink,
then clean up the scratch archive and scratch extraction directory. -/
def tool_section (sym : Bool) (dest link tar_path extract_path src url : String)
    (net : Network) (s : ModState) : R :=
  (if !(file_exists s.fs dest) then
      (download_file tar_path url net s).bind (fun s =>
      (extract_tar_gz tar_path extract_path s).bind (fun s =>
      copy_executable src dest s))
    else .ok s).bind (fun s =>
  (if sym then create_symlink link dest s else .ok s).bind (fun s =>
  (delete_file tar_path s).bind (fun s =>
  delete_file extract_path s)))

/-- `CliToolsModule.process_state`, the entrypoint.  Parameters mirror the
module options; `executable_directory` is abbreviated `dir`. -/
def process_state (sym : Bool) (dir install_type okd_release ocp_release state : String)
    (net : Network) (s : ModState) : R :=
  if state = "present" then
    if install_type = "okd" then
      (tool_section sym (dir ++ "/okd-install-" ++ okd_release) (dir ++ "/okd-install")
          "/tmp/okd_install.tar.gz" "/tmp/okd_install" "/tmp/okd_install/openshift-install"
          (okd_install_tar_gz_url okd_release) net s).bind (fun s =>
      tool_section sym (dir ++ "/oc-" ++ okd_release) (dir ++ "/oc")
          "/tmp/oc.tar.gz" "/tmp/oc" "/tmp/oc/oc"
          (okd_oc_tar_gz_url okd_release) net s)
    else if install_type = "ocp" then
      (tool_section sym (dir ++ "/openshift-install-" ++ ocp_release) (dir ++ "/openshift-install")
          "/tmp/openshift_install.tar.gz" "/tmp/openshift_install"
          "/tmp/openshift_install/openshift-install"
          (openshift_install_tar_gz_url ocp_release) net s).bind (fun s =>
      tool_section sym (dir ++ "/oc-" ++ ocp_release) (dir ++ "/oc")
          "/tmp/oc.tar.gz" "/tmp/oc" "/tmp/oc/oc"
          (openshift_oc_install_tar_gz_url ocp_release) net s)
    else
      (tool_section sym (dir ++ "/okd-install-" ++ okd_release) (dir ++ "/okd-install")
          "/tmp/okd_install.tar.gz" "/tmp/okd_install" "/tmp/okd_install/openshift-install"
          (okd_install_tar_gz_url okd_release) net s).bind (fun s =>
      (tool_section sym (dir ++ "/openshift-install-" ++ ocp_release) (dir ++ "/openshift-install")
          "/tmp/openshift_install.tar.gz" "/tmp/openshift_install"
          "/tmp/openshift_install/openshift-install"
          (openshift_install_tar_gz_url ocp_release) net s).bind (fun s =>
      tool_section sym (dir ++ "/oc-" ++ ocp_release) (dir ++ "/oc")
          "/tmp/oc.tar.gz" "/tmp/oc" "/tmp/oc/oc"
          (openshift_oc_install_tar_gz_url ocp_release) net s))
  else if state = "absent" then
    (if install_type = "okd" ∨ install_type = "both" then
        (delete_file "/tmp/okd_install.tar.gz" s).bind (fun s =>
        (delete_file "/tmp/okd_install" s).bind (fun s =>
        (delete_file (dir ++ "/okd-install-" ++ okd_release) s).bind (fun s =>
        (delete_file (dir ++ "/oc-" ++ okd_release) s).bind (fun s =>
        if sym then
          (delete_file (dir ++ "/okd-install") s).bind (fun s =>
          delete_file (dir ++ "/oc") s)
        else .ok s))))
      else .ok s).bind (fun s =>
    (if install_type = "ocp" ∨ install_type = "both" then
        (delete_file "/tmp/openshift_install.tar.gz" s).bind (fun s =>
        (delete_file "/tmp/openshift_install" s).bind (fun s =>
        (delete_file (dir ++ "/openshift-install-" ++ ocp_release) s).bind (fun s =>
        (delete_file (dir ++ "/oc-" ++ ocp_release) s).bind (fun s =>
        if sym then
          (delete_file (dir ++ "/openshift-install") s).bind (fun s =>
          delete_file (dir ++ "/oc") s)
        else .ok s))))
      else .ok s).bind (fun s =>
    (delete_file "/tmp/oc.tar.gz" s).bind (fun s =>
    delete_file "/tmp/oc" s)))
  else
    .ok s

/-- A concrete network for witnesses: serves a valid single-binary archive
for each of the four download URLs at the example releases, 404 elsewhere. -/
def witness_net : Network := fun u =>
  if u = okd_install_tar_gz_url "4.9.0-0.okd-2021-11-28-035710" then
    .ok ⟨200, "OK", .tarGz [("openshift-install", "okd-installer-bytes")]⟩
  else if u = okd_oc_tar_gz_url "4.9.0-0.okd-2021-11-28-035710" then
    .ok ⟨200, "OK", .tarGz [("oc", "okd-oc-bytes")]⟩
  else if u = openshift_install_tar_gz_url "4.9.10" then
    .ok ⟨200, "OK", .tarGz [("openshift-install", "ocp-installer-bytes")]⟩
  else if u = openshift_oc_install_tar_gz_url "4.9.10" then
    .ok ⟨200, "OK", .tarGz [("oc", "ocp-oc-bytes")]⟩
  else .ok ⟨404, "Not Found", .raw ""⟩

/-- A concrete network for witnesses of the failure claims: every request
gets a 503 response. -/
def witness_net_bad : Network := fun _ =>
  .ok ⟨503, "Service Unavailable", .raw ""⟩

/-- A concrete network serving the OKD GitHub URLs for the plain (marker-free)
release `4.9.10`, used to exhibit which URL family an okd run requests. -/
def witness_net_plain : Network := fun u =>
  if u = okd_install_tar_gz_url "4.9.10" then
    .ok ⟨200, "OK", .tarGz [("openshift-install", "installer-bytes")]⟩
  else if u = okd_oc_tar_gz_url "4.9.10" then
    .ok ⟨200, "OK", .tarGz [("oc", "oc-bytes")]⟩
  else .ok ⟨404, "Not Found", .raw ""⟩

/-- Modelled from the spec: the spec's resolver for the client tool `oc`
"special-cases a version string containing a vendor marker substring to
choose between two URL families" — the OKD GitHub family when the version
contains the marker `okd`, the mirror family otherwise.  No such substring
check exists in the source; this definition follows the spec's words and is
compared against what `process_state` actually requests. -/
def resolve_oc_spec (version : String) : String :=
  if "okd".data <:+: version.data then okd_oc_tar_gz_url version
  else openshift_oc_install_tar_gz_url version

/-- The failure surfaced by the argument schema for an invalid
`install_type`. -/
def invalid_install_type_msg : String :=
  "value of install_type must be one of: okd, ocp, both"

/-- Modelled from the spec: the invocation boundary (`main` plus the
`AnsibleModule` argument schema, whose enforcement lives in the external
runtime) validates `install_type` against the choices declared in `main`
(`okd`, `ocp`, `both`) and `state` against `present`/`absent` before
`process_state` runs; an invalid value is rejected with a user-facing
failure and no action is performed. -/
def run_module (sym : Bool) (dir install_type okd_release ocp_release state : String)
    (net : Network) (s : ModState) : R :=
  if (install_type = "okd" ∨ install_type = "ocp" ∨ install_type = "both")
      ∧ (state = "present" ∨ state = "absent") then
    process_state sym dir install_type okd_release ocp_release state net s
  else
    .fail invalid_install_type_msg s

/-- The versioned artifact destinations a `state=present` run manages, per
`install_type` (any unrecognised value falls into the `both` arm, as in
`process_state`). -/
def versioned_paths (install_type d okdR ocpR : String) : List String :=
  if install_type = "okd" then
    [d ++ "/okd-install-" ++ okdR, d ++ "/oc-" ++ okdR]
  else if install_type = "ocp" then
    [d ++ "/openshift-install-" ++ ocpR, d ++ "/oc-" ++ ocpR]
  else
    [d ++ "/okd-install-" ++ okdR, d ++ "/openshift-install-" ++ ocpR,
      d ++ "/oc-" ++ ocpR]

/-- `r` keeps the value `v` at path `p` (in both the success and the failure
outcome). -/
def R.keeps (r : R) (p : String) (v : Option FSNode) : Prop :=
  FS.lookup r.state.fs p = v

/-- `r` is a successful, request-free outcome from `s` that removes the
`cleared` paths, never resurrects an absent path, and leaves the request log
alone — the shape of every step of the `state=absent` arm. -/
def AbsentStep (s : ModState) (r : R) (cleared : List String) : Prop :=
  ∃ s1, r = .ok s1 ∧ s1.requests = s.requests ∧
    (∀ q, FS.lookup s.fs q = none → FS.lookup s1.fs q = none) ∧
    (∀ p ∈ cleared, FS.lookup s1.fs p = none)

/-! ### Lookup normalisation lemmas for the filesystem model -/

@[simp] theorem FS.lookup_nil (p : String) : FS.lookup [] p = none := rfl

@[simp] theorem FS.lookup_remove (fs : FS) (p q : String) :
    FS.lookup (FS.remove fs p) q = if q = p then none else FS.lookup fs q := by
  induction fs with
  | nil => simp [FS.remove, FS.lookup]
  | cons e rest ih =>
    simp only [FS.remove, List.filter_cons] at *
    by_cases hep : e.1 = p
    · simp only [hep, beq_self_eq_true, Bool.not_true, Bool.false_eq_true, ite_false]
      rw [ih]
      by_cases hqp : q = p
      · simp [hqp]
      · simp [hqp, FS.lookup, show ¬ q = e.1 from by rw [hep]; exact hqp]
    · have hb : (!(e.1 == p)) = true := by simp [hep]
      rw [if_pos hb]
      by_cases hqe : q = e.1
      · have hqp : ¬ q = p := by rw [hqe]; exact hep
        simp [FS.lookup, hqe, hqp, hep]
      · simp only [FS.lookup, if_neg hqe]
        exact ih

@[simp] theorem FS.lookup_removeTree (fs : FS) (p q : String) :
    FS.lookup (FS.removeTree fs p) q =
      if q = p ∨ pathUnder p q = true then none else FS.lookup fs q := by
  induction fs with
  | nil => simp [FS.removeTree, FS.lookup]
  | cons e rest ih =>
    simp only [FS.removeTree, List.filter_cons] at *
    by_cases hcond : e.1 = p ∨ pathUnder p e.1 = true
    · have hb : (!(e.1 == p || pathUnder p e.1)) = false := by
        rcases hcond with h1 | h1 <;> simp [h1]
      rw [hb, if_neg (by simp)]
      rw [ih]
      by_cases hq : q = p ∨ pathUnder p q = true
      · simp [hq]
      · have hqe : ¬ q = e.1 := by
          intro h; rw [h] at hq; exact hq hcond
        simp [hq, FS.lookup, hqe]
    · push_neg at hcond
      obtain ⟨hc1, hc2'⟩ := hcond
      have hc2 : pathUnder p e.1 = false := by simpa using hc2'
      have hb : (!(e.1 == p || pathUnder p e.1)) = true := by
        simp [hc1, hc2]
      rw [if_pos hb]
      by_cases hqe : q = e.1
      · have hq : ¬ (q = p ∨ pathUnder p q = true) := by
          rw [hqe]; push_neg; exact ⟨hc1, by simp [hc2]⟩
        simp [FS.lookup, hqe, hq, hc1, hc2]
      · simp only [FS.lookup, if_neg hqe]
        exact ih

@[simp] theorem FS.lookup_set (fs : FS) (p q : String) (n : FSNode) :
    FS.lookup (FS.set fs p n) q = if q = p then some n else FS.lookup fs q := by
  have key : ∀ (l : FS), FS.lookup (l ++ [(p, n)]) q =
      if q = p then (if (FS.lookup l q).isSome then FS.lookup l q else some n)
      else FS.lookup l q := by
    intro l
    induction l with
    | nil =>
      by_cases hqp : q = p <;> simp [FS.lookup, hqp]
    | cons e rest ih =>
      by_cases hqe : q = e.1
      · by_cases hqp : q = p <;>
          simp [List.cons_append, FS.lookup, hqe, hqp]
      · by_cases hqp : q = p
        · subst hqp
          simp [List.cons_append, FS.lookup, hqe, ih]
        · simp [List.cons_append, FS.lookup, hqe, hqp, ih]
  rw [FS.set, key (FS.remove fs p)]
  by_cases hqp : q = p <;> simp [hqp]

@[simp] theorem pathUnder_extracted (q rel : String) :
    pathUnder q (q ++ "/" ++ rel) = true := by
  rw [pathUnder]
  rw [List.isPrefixOf_iff_prefix]
  rw [String.data_append]
  exact List.prefix_append _ _

/-! ### Path distinctness facts

The managed paths under one executable directory are pairwise distinct: each
versioned artifact path (`dir/tool-release`), each unversioned symlink path
(`dir/tool`).  These are the string facts that drive the branch conditions of
`process_state`. -/

@[simp] theorem path_ne_okdv_ocv (d a b : String) :
    d ++ "/okd-install-" ++ a ≠ d ++ "/oc-" ++ b := by
  intro hc
  have h := congrArg String.data hc
  simp only [String.data_append, String.append_assoc] at h
  have h2 := List.append_cancel_left h
  simp at h2

@[simp] theorem path_ne_ocv_okdv (d a b : String) :
    d ++ "/oc-" ++ b ≠ d ++ "/okd-install-" ++ a :=
  fun h => path_ne_okdv_ocv d a b h.symm

@[simp] theorem path_ne_okdv_osv (d a b : String) :
    d ++ "/okd-install-" ++ a ≠ d ++ "/openshift-install-" ++ b := by
  intro hc
  have h := congrArg String.data hc
  simp only [String.data_append, String.append_assoc] at h
  have h2 := List.append_cancel_left h
  simp at h2

@[simp] theorem path_ne_osv_okdv (d a b : String) :
    d ++ "/openshift-install-" ++ b ≠ d ++ "/okd-install-" ++ a :=
  fun h => path_ne_okdv_osv d a b h.symm

@[simp] theorem path_ne_okdv_okdl (d a : String) :
    d ++ "/okd-install-" ++ a ≠ d ++ "/okd-install" := by
  intro hc
  have h := congrArg String.data hc
  simp only [String.data_append, String.append_assoc] at h
  have h2 := List.append_cancel_left h
  simp at h2

@[simp] theorem path_ne_okdl_okdv (d a : String) :
    d ++ "/okd-install" ≠ d ++ "/okd-install-" ++ a :=
  fun h => path_ne_okdv_okdl d a h.symm

@[simp] theorem path_ne_okdv_ocl (d a : String) :
    d ++ "/okd-install-" ++ a ≠ d ++ "/oc" := by
  intro hc
  have h := congrArg String.data hc
  simp only [String.data_append, String.append_assoc] at h
  have h2 := List.append_cancel_left h
  simp at h2

@[simp] theorem path_ne_ocl_okdv (d a : String) :
    d ++ "/oc" ≠ d ++ "/okd-install-" ++ a :=
  fun h => path_ne_okdv_ocl d a h.symm

@[simp] theorem path_ne_okdv_osl (d a : String) :
    d ++ "/okd-install-" ++ a ≠ d ++ "/openshift-install" := by
  intro hc
  have h := congrArg String.data hc
  simp only [String.data_append, String.append_assoc] at h
  have h2 := List.append_cancel_left h
  simp at h2

@[simp] theorem path_ne_osl_okdv (d a : String) :
    d ++ "/openshift-install" ≠ d ++ "/okd-install-" ++ a :=
  fun h => path_ne_okdv_osl d a h.symm

@[simp] theorem path_ne_ocv_osv (d a b : String) :
    d ++ "/oc-" ++ a ≠ d ++ "/openshift-install-" ++ b := by
  intro hc
  have h := congrArg String.data hc
  simp only [String.data_append, String.append_assoc] at h
  have h2 := List.append_cancel_left h
  simp at h2

@[simp] theorem path_ne_osv_ocv (d a b : String) :
    d ++ "/openshift-install-" ++ b ≠ d ++ "/oc-" ++ a :=
  fun h => path_ne_ocv_osv d a b h.symm

@[simp] theorem path_ne_ocv_okdl (d a : String) :
    d ++ "/oc-" ++ a ≠ d ++ "/okd-install" := by
  intro hc
  have h := congrArg String.data hc
  simp only [String.data_append, String.append_assoc] at h
  have h2 := List.append_cancel_left h
  simp at h2

@[simp] theorem path_ne_okdl_ocv (d a : String) :
    d ++ "/okd-install" ≠ d ++ "/oc-" ++ a :=
  fun h => path_ne_ocv_okdl d a h.symm

@[simp] theorem path_ne_ocv_ocl (d a : String) :
    d ++ "/oc-" ++ a ≠ d ++ "/oc" := by
  intro hc
  have h := congrArg String.data hc
  simp only [String.data_append, String.append_assoc] at h
  have h2 := List.append_cancel_left h
  simp at h2

@[simp] theorem path_ne_ocl_ocv (d a : String) :
    d ++ "/oc" ≠ d ++ "/oc-" ++ a :=
  fun h => path_ne_ocv_ocl d a h.symm

@[simp] theorem path_ne_ocv_osl (d a : String) :
    d ++ "/oc-" ++ a ≠ d ++ "/openshift-install" := by
  intro hc
  have h := congrArg String.data hc
  simp only [String.data_append, String.append_assoc] at h
  have h2 := List.append_cancel_left h
  simp at h2

@[simp] theorem path_ne_osl_ocv (d a : String) :
    d ++ "/openshift-install" ≠ d ++ "/oc-" ++ a :=
  fun h => path_ne_ocv_osl d a h.symm

@[simp] theorem path_ne_osv_okdl (d a : String) :
    d ++ "/openshift-install-" ++ a ≠ d ++ "/okd-install" := by
  intro hc
  have h := congrArg String.data hc
  simp only [String.data_append, String.append_assoc] at h
  have h2 := List.append_cancel_left h
  simp at h2

@[simp] theorem path_ne_okdl_osv (d a : String) :
    d ++ "/okd-install" ≠ d ++ "/openshift-install-" ++ a :=
  fun h => path_ne_osv_okdl d a h.symm

@[simp] theorem path_ne_osv_ocl (d a : String) :
    d ++ "/openshift-install-" ++ a ≠ d ++ "/oc" := by
  intro hc
  have h := congrArg String.data hc
  simp only [String.data_append, String.append_assoc] at h
  have h2 := List.append_cancel_left h
  simp at h2

@[simp] theorem path_ne_ocl_osv (d a : String) :
    d ++ "/oc" ≠ d ++ "/openshift-install-" ++ a :=
  fun h => path_ne_osv_ocl d a h.symm

@[simp] theorem path_ne_osv_osl (d a : String) :
    d ++ "/openshift-install-" ++ a ≠ d ++ "/openshift-install" := by
  intro hc
  have h := congrArg String.data hc
  simp only [String.data_append, String.append_assoc] at h
  have h2 := List.append_cancel_left h
  simp at h2

@[simp] theorem path_ne_osl_osv (d a : String) :
    d ++ "/openshift-install" ≠ d ++ "/openshift-install-" ++ a :=
  fun h => path_ne_osv_osl d a h.symm

@[simp] theorem path_ne_okdl_ocl (d : String) :
    d ++ "/okd-install" ≠ d ++ "/oc" := by
  intro hc
  have h := congrArg String.data hc
  simp only [String.data_append, String.append_assoc] at h
  have h2 := List.append_cancel_left h
  simp at h2

@[simp] theorem path_ne_ocl_okdl (d : String) :
    d ++ "/oc" ≠ d ++ "/okd-install" :=
  fun h => path_ne_okdl_ocl d h.symm

@[simp] theorem path_ne_okdl_osl (d : String) :
    d ++ "/okd-install" ≠ d ++ "/openshift-install" := by
  intro hc
  have h := congrArg String.data hc
  simp only [String.data_append, String.append_assoc] at h
  have h2 := List.append_cancel_left h
  simp at h2

@[simp] theorem path_ne_osl_okdl (d : String) :
    d ++ "/openshift-install" ≠ d ++ "/okd-install" :=
  fun h => path_ne_okdl_osl d h.symm

@[simp] theorem path_ne_ocl_osl (d : String) :
    d ++ "/oc" ≠ d ++ "/openshift-install" := by
  intro hc
  have h := congrArg String.data hc
  simp only [String.data_append, String.append_assoc] at h
  have h2 := List.append_cancel_left h
  simp at h2

@[simp] theorem path_ne_osl_ocl (d : String) :
    d ++ "/openshift-install" ≠ d ++ "/oc" :=
  fun h => path_ne_ocl_osl d h.symm

@[simp] theorem path_ne_empty_okdv (d a : String) :
    d ++ "/okd-install-" ++ a ≠ "" := by
  intro hc
  have h := congrArg String.data hc
  simp only [String.data_append, String.append_assoc] at h
  simp at h

@[simp] theorem empty_ne_path_okdv (d a : String) :
    "" ≠ d ++ "/okd-install-" ++ a :=
  fun h => path_ne_empty_okdv d a h.symm

@[simp] theorem path_ne_empty_ocv (d a : String) :
    d ++ "/oc-" ++ a ≠ "" := by
  intro hc
  have h := congrArg String.data hc
  simp only [String.data_append, String.append_assoc] at h
  simp at h

@[simp] theorem empty_ne_path_ocv (d a : String) :
    "" ≠ d ++ "/oc-" ++ a :=
  fun h => path_ne_empty_ocv d a h.symm

@[simp] theorem path_ne_empty_osv (d a : String) :
    d ++ "/openshift-install-" ++ a ≠ "" := by
  intro hc
  have h := congrArg String.data hc
  simp only [String.data_append, String.append_assoc] at h
  simp at h

@[simp] theorem empty_ne_path_osv (d a : String) :
    "" ≠ d ++ "/openshift-install-" ++ a :=
  fun h => path_ne_empty_osv d a h.symm

/-! ### The fixed scratch area in `/tmp` -/

/-- Every path the module touches inside `/tmp`: the scratch archives, the
scratch extraction directories, and the binaries extracted inside them. -/
def scratch_paths : List String :=
  ["/tmp/okd_install.tar.gz", "/tmp/okd_install", "/tmp/okd_install/openshift-install",
   "/tmp/oc.tar.gz", "/tmp/oc", "/tmp/oc/oc",
   "/tmp/openshift_install.tar.gz", "/tmp/openshift_install",
   "/tmp/openshift_install/openshift-install"]

/-- The path `p` is clear of the scratch area: distinct from every scratch
path and not lying below a scratch directory. -/
def PathClear (p : String) : Prop :=
  ∀ q ∈ scratch_paths, p ≠ q ∧ q ≠ p ∧ pathUnder q p = false

instance (p : String) : Decidable (PathClear p) := by
  unfold PathClear; infer_instance

/-- The artifact and symlink paths `process_state` manages below one
executable directory. -/
def managed_paths (d okdR ocpR : String) : List String :=
  [d ++ "/okd-install-" ++ okdR, d ++ "/oc-" ++ okdR,
   d ++ "/openshift-install-" ++ ocpR, d ++ "/oc-" ++ ocpR,
   d ++ "/okd-install", d ++ "/oc", d ++ "/openshift-install"]

/-- The executable directory (together with the two release strings) does not
collide with the fixed scratch area in `/tmp` — true of any ordinary choice
such as `/usr/local/bin`. -/
def DirDisjoint (d okdR ocpR : String) : Prop :=
  ∀ p ∈ managed_paths d okdR ocpR, PathClear p

instance (d okdR ocpR : String) : Decidable (DirDisjoint d okdR ocpR) := by
  unfold DirDisjoint; infer_instance

/-! ### Concrete relations between scratch paths -/

@[simp] theorem pathUnder_okdx_okdtar : pathUnder "/tmp/okd_install" "/tmp/okd_install.tar.gz" = false := by decide

@[simp] theorem pathUnder_okdx_okdx : pathUnder "/tmp/okd_install" "/tmp/okd_install" = false := by decide

@[simp] theorem pathUnder_okdx_okdbin : pathUnder "/tmp/okd_install" "/tmp/okd_install/openshift-install" = true := by decide

@[simp] theorem pathUnder_okdx_octar : pathUnder "/tmp/okd_install" "/tmp/oc.tar.gz" = false := by decide

@[simp] theorem pathUnder_okdx_ocx : pathUnder "/tmp/okd_install" "/tmp/oc" = false := by decide

@[simp] theorem pathUnder_okdx_ocbin : pathUnder "/tmp/okd_install" "/tmp/oc/oc" = false := by decide

@[simp] theorem pathUnder_okdx_ostar : pathUnder "/tmp/okd_install" "/tmp/openshift_install.tar.gz" = false := by decide

@[simp] theorem pathUnder_okdx_osx : pathUnder "/tmp/okd_install" "/tmp/openshift_install" = false := by decide

@[simp] theorem pathUnder_okdx_osbin : pathUnder "/tmp/okd_install" "/tmp/openshift_install/openshift-install" = false := by decide

@[simp] theorem pathUnder_ocx_okdtar : pathUnder "/tmp/oc" "/tmp/okd_install.tar.gz" = false := by decide

@[simp] theorem pathUnder_ocx_okdx : pathUnder "/tmp/oc" "/tmp/okd_install" = false := by decide

@[simp] theorem pathUnder_ocx_okdbin : pathUnder "/tmp/oc" "/tmp/okd_install/openshift-install" = false := by decide

@[simp] theorem pathUnder_ocx_octar : pathUnder "/tmp/oc" "/tmp/oc.tar.gz" = false := by decide

@[simp] theorem pathUnder_ocx_ocx : pathUnder "/tmp/oc" "/tmp/oc" = false := by decide

@[simp] theorem pathUnder_ocx_ocbin : pathUnder "/tmp/oc" "/tmp/oc/oc" = true := by decide

@[simp] theorem pathUnder_ocx_ostar : pathUnder "/tmp/oc" "/tmp/openshift_install.tar.gz" = false := by decide

@[simp] theorem pathUnder_ocx_osx : pathUnder "/tmp/oc" "/tmp/openshift_install" = false := by decide

@[simp] theorem pathUnder_ocx_osbin : pathUnder "/tmp/oc" "/tmp/openshift_install/openshift-install" = false := by decide

@[simp] theorem pathUnder_osx_okdtar : pathUnder "/tmp/openshift_install" "/tmp/okd_install.tar.gz" = false := by decide

@[simp] theorem pathUnder_osx_okdx : pathUnder "/tmp/openshift_install" "/tmp/okd_install" = false := by decide

@[simp] theorem pathUnder_osx_okdbin : pathUnder "/tmp/openshift_install" "/tmp/okd_install/openshift-install" = false := by decide

@[simp] theorem pathUnder_osx_octar : pathUnder "/tmp/openshift_install" "/tmp/oc.tar.gz" = false := by decide

@[simp] theorem pathUnder_osx_ocx : pathUnder "/tmp/openshift_install" "/tmp/oc" = false := by decide

@[simp] theorem pathUnder_osx_ocbin : pathUnder "/tmp/openshift_install" "/tmp/oc/oc" = false := by decide

@[simp] theorem pathUnder_osx_ostar : pathUnder "/tmp/openshift_install" "/tmp/openshift_install.tar.gz" = false := by decide

@[simp] theorem pathUnder_osx_osx : pathUnder "/tmp/openshift_install" "/tmp/openshift_install" = false := by decide

@[simp] theorem pathUnder_osx_osbin : pathUnder "/tmp/openshift_install" "/tmp/openshift_install/openshift-install" = true := by decide

/-! ### Step lemmas: how each module operation behaves on known state -/

theorem download_file_skip {s : ModState} {path : String} {n : FSNode}
    (h : FS.lookup s.fs path = some n) (url : String) (net : Network) :
    download_file path url net s = .ok s := by
  simp [download_file, file_exists, h]

theorem download_file_ok {s : ModState} {path url : String} {net : Network}
    {rsn : String} {body : Content}
    (h : FS.lookup s.fs path = none)
    (hnet : net url = .ok ⟨200, rsn, body⟩) :
    download_file path url net s =
      .ok ⟨FS.set s.fs path (.file body 420), true, s.requests ++ [url]⟩ := by
  simp [download_file, file_exists, h, hnet]

theorem download_file_bad_status {s : ModState} {path url : String} {net : Network}
    {resp : HttpResponse}
    (h : FS.lookup s.fs path = none)
    (hnet : net url = .ok resp) (hst : resp.status ≠ 200) :
    download_file path url net s =
      .fail (download_fail_msg url resp.status resp.reason)
        ⟨s.fs, true, s.requests ++ [url]⟩ := by
  simp [download_file, file_exists, h, hnet, hst]

theorem download_file_transport {s : ModState} {path url : String} {net : Network}
    {exn : String}
    (h : FS.lookup s.fs path = none)
    (hnet : net url = .error exn) :
    download_file path url net s = .fail exn ⟨s.fs, true, s.requests ++ [url]⟩ := by
  simp [download_file, file_exists, h, hnet]

theorem extract_tar_gz_skip {s : ModState} {extract_path : String} {n : FSNode}
    (h : FS.lookup s.fs extract_path = some n) (tar_path : String) :
    extract_tar_gz tar_path extract_path s = .ok s := by
  simp [extract_tar_gz, file_exists, h]

theorem extract_tar_gz_single {s : ModState} {tar_path extract_path bin c : String}
    {m : Nat}
    (hx : FS.lookup s.fs extract_path = none)
    (ht : FS.lookup s.fs tar_path = some (.file (.tarGz [(bin, c)]) m)) :
    extract_tar_gz tar_path extract_path s =
      .ok ⟨FS.set (FS.set s.fs extract_path .dir) (extract_path ++ "/" ++ bin)
            (.file (.raw c) 420), true, s.requests⟩ := by
  simp [extract_tar_gz, file_exists, hx, ht, List.foldl]

theorem copy_executable_skip {s : ModState} {dest : String} {n : FSNode}
    (h : FS.lookup s.fs dest = some n) (src : String) :
    copy_executable src dest s = .ok s := by
  simp [copy_executable, file_exists, h]

theorem copy_executable_ok {s : ModState} {src dest : String} {c : Content} {m : Nat}
    (hd : FS.lookup s.fs dest = none)
    (hs : FS.lookup s.fs src = some (.file c m)) :
    copy_executable src dest s =
      .ok ⟨FS.set (FS.remove s.fs src) dest (.file c 509), true, s.requests⟩ := by
  simp [copy_executable, file_exists, hd, hs, chmod775]

theorem delete_file_noop {s : ModState} {path : String}
    (h : FS.lookup s.fs path = none) :
    delete_file path s = .ok s := by
  simp [delete_file, h]

theorem delete_file_reg {s : ModState} {path : String} {c : Content} {m : Nat}
    (h : FS.lookup s.fs path = some (.file c m)) :
    delete_file path s = .ok ⟨FS.remove s.fs path, true, s.requests⟩ := by
  simp [delete_file, h]

theorem delete_file_link {s : ModState} {path t : String}
    (h : FS.lookup s.fs path = some (.symlink t)) :
    delete_file path s = .ok ⟨FS.remove s.fs path, true, s.requests⟩ := by
  simp [delete_file, h]

theorem delete_file_dir {s : ModState} {path : String}
    (h : FS.lookup s.fs path = some .dir) :
    delete_file path s = .ok ⟨FS.removeTree s.fs path, true, s.requests⟩ := by
  simp [delete_file, h]

theorem create_symlink_match {s : ModState} {link target : String}
    (h : FS.lookup s.fs link = some (.symlink target)) :
    create_symlink link target s = .ok s := by
  simp [create_symlink, h, symlink_update]

theorem create_symlink_repair {s : ModState} {link target t : String}
    (h : FS.lookup s.fs link = some (.symlink t)) (hne : t ≠ target) :
    create_symlink link target s =
      .ok ⟨FS.set (FS.remove s.fs link) link (.symlink target), true, s.requests⟩ := by
  simp [create_symlink, h, symlink_update, hne, file_exists]

theorem create_symlink_fresh {s : ModState} {link target : String}
    (h : FS.lookup s.fs link = none) (hne : target ≠ "") :
    create_symlink link target s =
      .ok ⟨FS.set s.fs link (.symlink target), true, s.requests⟩ := by
  simp [create_symlink, h, symlink_update, file_exists, Ne.symm hne]

theorem create_symlink_file {s : ModState} {link target : String} {c : Content} {m : Nat}
    (h : FS.lookup s.fs link = some (.file c m)) :
    create_symlink link target s = .fail (einval_msg link) s := by
  simp [create_symlink, h]

theorem create_symlink_dir {s : ModState} {link target : String}
    (h : FS.lookup s.fs link = some .dir) :
    create_symlink link target s = .fail (einval_msg link) s := by
  simp [create_symlink, h]

/-! ### Evaluation of one fresh per-tool install block -/

/-- Running one per-tool block of the `present` arm on a state where nothing
of the tool is installed, with the network serving a valid archive that
contains exactly the expected binary: the block succeeds, reports `changed`,
requests exactly its URL, and afterwards the versioned binary is installed
(mode 0o775), the symlink exists when requested, the scratch area of the
block is gone, and every other path is untouched. -/
theorem tool_section_fresh
    (sym : Bool) {s : ModState} {dest link tar xdir bin url c rsn : String}
    {net : Network}
    (hd : FS.lookup s.fs dest = none)
    (hl : FS.lookup s.fs link = none)
    (ht : FS.lookup s.fs tar = none)
    (hx : FS.lookup s.fs xdir = none)
    (hnet : net url = .ok ⟨200, rsn, .tarGz [(bin, c)]⟩)
    (hdc : PathClear dest) (hlc : PathClear link)
    (htm : tar ∈ scratch_paths) (hxm : xdir ∈ scratch_paths)
    (hsm : (xdir ++ "/" ++ bin) ∈ scratch_paths)
    (hld : link ≠ dest) (hde : dest ≠ "")
    (hxt : xdir ≠ tar) (hst : (xdir ++ "/" ++ bin) ≠ tar)
    (hput : pathUnder xdir tar = false) :
    ∃ fs1 : FS,
      tool_section sym dest link tar xdir (xdir ++ "/" ++ bin) url net s =
        .ok ⟨fs1, true, s.requests ++ [url]⟩ ∧
      ∀ q, FS.lookup fs1 q =
        if q = tar ∨ q = xdir ∨ pathUnder xdir q = true then none
        else if sym = true ∧ q = link then some (.symlink dest)
        else if q = dest then some (.file (.raw c) 509)
        else FS.lookup s.fs q := by
  obtain ⟨hdt, htd, hptd⟩ := hdc tar htm
  obtain ⟨hdx, hxd, hpxd⟩ := hdc xdir hxm
  obtain ⟨hds, hsd, hpsd⟩ := hdc _ hsm
  obtain ⟨hlt, htl, hptl⟩ := hlc tar htm
  obtain ⟨hlx, hxl, hpxl⟩ := hlc xdir hxm
  obtain ⟨hls, hsl, hpsl⟩ := hlc _ hsm
  have hsx : (xdir ++ "/" ++ bin) ≠ xdir := by
    intro hc
    have h := congrArg String.length hc
    rw [String.length_append, String.length_append] at h
    have h1 : ("/" : String).length = 1 := rfl
    rw [h1] at h
    omega
  have hpux : pathUnder xdir (xdir ++ "/" ++ bin) = true := pathUnder_extracted xdir bin
  have hfe : file_exists s.fs dest = false := by simp [file_exists, hd]
  have e1 : download_file tar url net s =
      .ok ⟨FS.set s.fs tar (.file (.tarGz [(bin, c)]) 420), true, s.requests ++ [url]⟩ :=
    download_file_ok ht hnet
  set sA : ModState :=
    ⟨FS.set s.fs tar (.file (.tarGz [(bin, c)]) 420), true, s.requests ++ [url]⟩ with hsA
  have hAx : FS.lookup sA.fs xdir = none := by simp [hsA, hxt, hx]
  have hAt : FS.lookup sA.fs tar = some (.file (.tarGz [(bin, c)]) 420) := by simp [hsA]
  have e2 : extract_tar_gz tar xdir sA =
      .ok ⟨FS.set (FS.set sA.fs xdir .dir) (xdir ++ "/" ++ bin) (.file (.raw c) 420),
            true, sA.requests⟩ :=
    extract_tar_gz_single hAx hAt
  set sB : ModState :=
    ⟨FS.set (FS.set sA.fs xdir .dir) (xdir ++ "/" ++ bin) (.file (.raw c) 420),
      true, sA.requests⟩ with hsB
  have hBd : FS.lookup sB.fs dest = none := by simp [hsB, hsA, hds, hdx, hdt, hd]
  have hBs : FS.lookup sB.fs (xdir ++ "/" ++ bin) = some (.file (.raw c) 420) := by
    simp [hsB]
  have e3 : copy_executable (xdir ++ "/" ++ bin) dest sB =
      .ok ⟨FS.set (FS.remove sB.fs (xdir ++ "/" ++ bin)) dest (.file (.raw c) 509),
            true, sB.requests⟩ :=
    copy_executable_ok hBd hBs
  set sC : ModState :=
    ⟨FS.set (FS.remove sB.fs (xdir ++ "/" ++ bin)) dest (.file (.raw c) 509),
      true, sB.requests⟩ with hsC
  cases sym with
  | true =>
    have hCl : FS.lookup sC.fs link = none := by
      simp [hsC, hsB, hsA, hld, hls, hlx, hlt, hl]
    have e4 : create_symlink link dest sC =
        .ok ⟨FS.set sC.fs link (.symlink dest), true, sC.requests⟩ :=
      create_symlink_fresh hCl hde
    set sD : ModState := ⟨FS.set sC.fs link (.symlink dest), true, sC.requests⟩ with hsD
    have hDt : FS.lookup sD.fs tar = some (.file (.tarGz [(bin, c)]) 420) := by
      simp [hsD, hsC, hsB, hsA, htl, htd, Ne.symm hst, Ne.symm hxt]
    have e5 : delete_file tar sD = .ok ⟨FS.remove sD.fs tar, true, sD.requests⟩ :=
      delete_file_reg hDt
    set sE : ModState := ⟨FS.remove sD.fs tar, true, sD.requests⟩ with hsE
    have hEx : FS.lookup sE.fs xdir = some .dir := by
      simp [hsE, hsD, hsC, hsB, hsA, hxt, hxl, hxd, Ne.symm hsx]
    have e6 : delete_file xdir sE = .ok ⟨FS.removeTree sE.fs xdir, true, sE.requests⟩ :=
      delete_file_dir hEx
    refine ⟨FS.removeTree sE.fs xdir, ?_, ?_⟩
    · rw [tool_section]
      simp [hfe, e1, e2, e3, e4, e5, e6, R.bind]
    · intro q
      by_cases h1 : q = xdir
      · subst h1
        simp [hsE, hsD, hsC, hsB, hsA]
      · by_cases h2 : pathUnder xdir q = true
        · simp [h2, h1]
        · have h6 : ¬ q = (xdir ++ "/" ++ bin) := by
            intro hc; rw [hc] at h2; exact h2 hpux
          by_cases h3 : q = tar
          · subst h3
            simp [hsE, hsD, hsC, hsB, hsA, h1, h2, hput]
          · by_cases h4 : q = link
            · subst h4
              simp [hsE, hsD, hsC, hsB, hsA, h1, h2, h3, hpxl]
            · by_cases h5 : q = dest
              · subst h5
                simp [hsE, hsD, hsC, hsB, hsA, h1, h2, h3, h4, Ne.symm hld]
              · simp [hsE, hsD, hsC, hsB, hsA, h1, h2, h3, h4, h5, h6]
  | false =>
    have hCt : FS.lookup sC.fs tar = some (.file (.tarGz [(bin, c)]) 420) := by
      simp [hsC, hsB, hsA, htd, Ne.symm hst, Ne.symm hxt]
    have e5 : delete_file tar sC = .ok ⟨FS.remove sC.fs tar, true, sC.requests⟩ :=
      delete_file_reg hCt
    set sE : ModState := ⟨FS.remove sC.fs tar, true, sC.requests⟩ with hsE
    have hEx : FS.lookup sE.fs xdir = some .dir := by
      simp [hsE, hsC, hsB, hsA, hxt, hxd, Ne.symm hsx]
    have e6 : delete_file xdir sE = .ok ⟨FS.removeTree sE.fs xdir, true, sE.requests⟩ :=
      delete_file_dir hEx
    refine ⟨FS.removeTree sE.fs xdir, ?_, ?_⟩
    · rw [tool_section]
      simp [hfe, e1, e2, e3, e5, e6, R.bind]
    · intro q
      by_cases h1 : q = xdir
      · subst h1
        simp [hsE, hsC, hsB, hsA]
      · by_cases h2 : pathUnder xdir q = true
        · simp [h2, h1]
        · have h6 : ¬ q = (xdir ++ "/" ++ bin) := by
            intro hc; rw [hc] at h2; exact h2 hpux
          by_cases h3 : q = tar
          · subst h3
            simp [hsE, hsC, hsB, hsA, h1, h2, hput]
          · by_cases h5 : q = dest
            · subst h5
              simp [hsE, hsC, hsB, hsA, h1, h2, h3]
            · simp [hsE, hsC, hsB, hsA, h1, h2, h3, h5, h6]

/-- Over one scratch clause of a `tool_section_fresh` characterisation, a
path clear of the scratch area always takes the `else` branch. -/
theorem PathClear.scratch_clause_false {q tar xdir : String}
    (hq : PathClear q) (htm : tar ∈ scratch_paths) (hxm : xdir ∈ scratch_paths) :
    (q = tar ∨ q = xdir ∨ pathUnder xdir q = true) = False := by
  obtain ⟨a1, _, _⟩ := hq tar htm
  obtain ⟨b1, _, b3⟩ := hq xdir hxm
  simp [a1, b1, b3]

/-- A fresh `state=present` run with `install_type=okd`: from a filesystem
with no managed paths and an empty scratch area, with the network serving
valid archives for both OKD URLs, the run succeeds, reports `changed`,
requests exactly the two OKD URLs in order, installs both versioned binaries
(plus symlinks when requested), and leaves the scratch area clean. -/
theorem present_okd_fresh
    (sym : Bool) {s : ModState} {d okdR ocpR c1 c2 rsn1 rsn2 : String} {net : Network}
    (hdd : DirDisjoint d okdR ocpR)
    (h0 : ∀ p ∈ managed_paths d okdR ocpR, FS.lookup s.fs p = none)
    (hsc : ∀ p ∈ scratch_paths, FS.lookup s.fs p = none)
    (hn1 : net (okd_install_tar_gz_url okdR) =
      .ok ⟨200, rsn1, .tarGz [("openshift-install", c1)]⟩)
    (hn2 : net (okd_oc_tar_gz_url okdR) =
      .ok ⟨200, rsn2, .tarGz [("oc", c2)]⟩) :
    ∃ fs2 : FS,
      process_state sym d "okd" okdR ocpR "present" net s =
        .ok ⟨fs2, true,
          s.requests ++ [okd_install_tar_gz_url okdR, okd_oc_tar_gz_url okdR]⟩ ∧
      ∀ q, FS.lookup fs2 q =
        if q = "/tmp/oc.tar.gz" ∨ q = "/tmp/oc" ∨ pathUnder "/tmp/oc" q = true then none
        else if sym = true ∧ q = d ++ "/oc" then some (.symlink (d ++ "/oc-" ++ okdR))
        else if q = d ++ "/oc-" ++ okdR then some (.file (.raw c2) 509)
        else if q = "/tmp/okd_install.tar.gz" ∨ q = "/tmp/okd_install"
              ∨ pathUnder "/tmp/okd_install" q = true then none
        else if sym = true ∧ q = d ++ "/okd-install" then
          some (.symlink (d ++ "/okd-install-" ++ okdR))
        else if q = d ++ "/okd-install-" ++ okdR then some (.file (.raw c1) 509)
        else FS.lookup s.fs q := by
  have m1 : ("/tmp/okd_install.tar.gz" : String) ∈ scratch_paths := by decide
  have m2 : ("/tmp/okd_install" : String) ∈ scratch_paths := by decide
  have m3 : (("/tmp/okd_install" : String) ++ "/" ++ "openshift-install") ∈ scratch_paths := by
    decide
  have m4 : ("/tmp/oc.tar.gz" : String) ∈ scratch_paths := by decide
  have m5 : ("/tmp/oc" : String) ∈ scratch_paths := by decide
  have m6 : (("/tmp/oc" : String) ++ "/" ++ "oc") ∈ scratch_paths := by decide
  have pcD1 : PathClear (d ++ "/okd-install-" ++ okdR) := hdd _ (by simp [managed_paths])
  have pcL1 : PathClear (d ++ "/okd-install") := hdd _ (by simp [managed_paths])
  have pcD2 : PathClear (d ++ "/oc-" ++ okdR) := hdd _ (by simp [managed_paths])
  have pcL2 : PathClear (d ++ "/oc") := hdd _ (by simp [managed_paths])
  have hd1 : FS.lookup s.fs (d ++ "/okd-install-" ++ okdR) = none :=
    h0 _ (by simp [managed_paths])
  have hl1 : FS.lookup s.fs (d ++ "/okd-install") = none :=
    h0 _ (by simp [managed_paths])
  have ht1 : FS.lookup s.fs "/tmp/okd_install.tar.gz" = none := hsc _ m1
  have hx1 : FS.lookup s.fs "/tmp/okd_install" = none := hsc _ m2
  obtain ⟨fs1, e1, char1⟩ :=
    tool_section_fresh sym hd1 hl1 ht1 hx1 hn1 pcD1 pcL1 m1 m2 m3
      (path_ne_okdl_okdv d okdR) (path_ne_empty_okdv d okdR)
      (by decide) (by decide) (by decide)
  have hd2 : FS.lookup s.fs (d ++ "/oc-" ++ okdR) = none :=
    h0 _ (by simp [managed_paths])
  have hl2 : FS.lookup s.fs (d ++ "/oc") = none :=
    h0 _ (by simp [managed_paths])
  have h2d : FS.lookup fs1 (d ++ "/oc-" ++ okdR) = none := by
    rw [char1]
    simp [PathClear.scratch_clause_false pcD2 m1 m2, hd2]
  have h2l : FS.lookup fs1 (d ++ "/oc") = none := by
    rw [char1]
    simp [PathClear.scratch_clause_false pcL2 m1 m2, hl2]
  have h2t : FS.lookup fs1 "/tmp/oc.tar.gz" = none := by
    rw [char1]
    simp [(pcL1 _ m4).2.1, (pcD1 _ m4).2.1, hsc _ m4]
  have h2x : FS.lookup fs1 "/tmp/oc" = none := by
    rw [char1]
    simp [(pcL1 _ m5).2.1, (pcD1 _ m5).2.1, hsc _ m5]
  obtain ⟨fs2, e2, char2⟩ :=
    tool_section_fresh sym (s := ⟨fs1, true, s.requests ++ [okd_install_tar_gz_url okdR]⟩)
      h2d h2l h2t h2x hn2 pcD2 pcL2 m4 m5 m6
      (path_ne_ocl_ocv d okdR) (path_ne_empty_ocv d okdR)
      (by decide) (by decide) (by decide)
  have es1 : ("/tmp/okd_install" : String) ++ "/" ++ "openshift-install" =
      "/tmp/okd_install/openshift-install" := by decide
  have es2 : ("/tmp/oc" : String) ++ "/" ++ "oc" = "/tmp/oc/oc" := by decide
  rw [es1] at e1
  rw [es2] at e2
  refine ⟨fs2, ?_, ?_⟩
  · rw [process_state]
    simp [e1, e2, R.bind]
  · intro q
    rw [char2 q, char1 q]

/-- A fresh `state=present` run with `install_type=ocp`, analogous to
`present_okd_fresh`, using the two mirror.openshift.com URLs. -/
theorem present_ocp_fresh
    (sym : Bool) {s : ModState} {d okdR ocpR c1 c2 rsn1 rsn2 : String} {net : Network}
    (hdd : DirDisjoint d okdR ocpR)
    (h0 : ∀ p ∈ managed_paths d okdR ocpR, FS.lookup s.fs p = none)
    (hsc : ∀ p ∈ scratch_paths, FS.lookup s.fs p = none)
    (hn1 : net (openshift_install_tar_gz_url ocpR) =
      .ok ⟨200, rsn1, .tarGz [("openshift-install", c1)]⟩)
    (hn2 : net (openshift_oc_install_tar_gz_url ocpR) =
      .ok ⟨200, rsn2, .tarGz [("oc", c2)]⟩) :
    ∃ fs2 : FS,
      process_state sym d "ocp" okdR ocpR "present" net s =
        .ok ⟨fs2, true,
          s.requests ++ [openshift_install_tar_gz_url ocpR,
            openshift_oc_install_tar_gz_url ocpR]⟩ ∧
      ∀ q, FS.lookup fs2 q =
        if q = "/tmp/oc.tar.gz" ∨ q = "/tmp/oc" ∨ pathUnder "/tmp/oc" q = true then none
        else if sym = true ∧ q = d ++ "/oc" then some (.symlink (d ++ "/oc-" ++ ocpR))
        else if q = d ++ "/oc-" ++ ocpR then some (.file (.raw c2) 509)
        else if q = "/tmp/openshift_install.tar.gz" ∨ q = "/tmp/openshift_install"
              ∨ pathUnder "/tmp/openshift_install" q = true then none
        else if sym = true ∧ q = d ++ "/openshift-install" then
          some (.symlink (d ++ "/openshift-install-" ++ ocpR))
        else if q = d ++ "/openshift-install-" ++ ocpR then some (.file (.raw c1) 509)
        else FS.lookup s.fs q := by
  have m1 : ("/tmp/openshift_install.tar.gz" : String) ∈ scratch_paths := by decide
  have m2 : ("/tmp/openshift_install" : String) ∈ scratch_paths := by decide
  have m3 : (("/tmp/openshift_install" : String) ++ "/" ++ "openshift-install") ∈ scratch_paths := by
    decide
  have m4 : ("/tmp/oc.tar.gz" : String) ∈ scratch_paths := by decide
  have m5 : ("/tmp/oc" : String) ∈ scratch_paths := by decide
  have m6 : (("/tmp/oc" : String) ++ "/" ++ "oc") ∈ scratch_paths := by decide
  have pcD1 : PathClear (d ++ "/openshift-install-" ++ ocpR) := hdd _ (by simp [managed_paths])
  have pcL1 : PathClear (d ++ "/openshift-install") := hdd _ (by simp [managed_paths])
  have pcD2 : PathClear (d ++ "/oc-" ++ ocpR) := hdd _ (by simp [managed_paths])
  have pcL2 : PathClear (d ++ "/oc") := hdd _ (by simp [managed_paths])
  have hd1 : FS.lookup s.fs (d ++ "/openshift-install-" ++ ocpR) = none :=
    h0 _ (by simp [managed_paths])
  have hl1 : FS.lookup s.fs (d ++ "/openshift-install") = none :=
    h0 _ (by simp [managed_paths])
  have ht1 : FS.lookup s.fs "/tmp/openshift_install.tar.gz" = none := hsc _ m1
  have hx1 : FS.lookup s.fs "/tmp/openshift_install" = none := hsc _ m2
  obtain ⟨fs1, e1, char1⟩ :=
    tool_section_fresh sym hd1 hl1 ht1 hx1 hn1 pcD1 pcL1 m1 m2 m3
      (path_ne_osl_osv d ocpR) (path_ne_empty_osv d ocpR)
      (by decide) (by decide) (by decide)
  have hd2 : FS.lookup s.fs (d ++ "/oc-" ++ ocpR) = none :=
    h0 _ (by simp [managed_paths])
  have hl2 : FS.lookup s.fs (d ++ "/oc") = none :=
    h0 _ (by simp [managed_paths])
  have h2d : FS.lookup fs1 (d ++ "/oc-" ++ ocpR) = none := by
    rw [char1]
    simp [PathClear.scratch_clause_false pcD2 m1 m2, hd2]
  have h2l : FS.lookup fs1 (d ++ "/oc") = none := by
    rw [char1]
    simp [PathClear.scratch_clause_false pcL2 m1 m2, hl2]
  have h2t : FS.lookup fs1 "/tmp/oc.tar.gz" = none := by
    rw [char1]
    simp [(pcL1 _ m4).2.1, (pcD1 _ m4).2.1, hsc _ m4]
  have h2x : FS.lookup fs1 "/tmp/oc" = none := by
    rw [char1]
    simp [(pcL1 _ m5).2.1, (pcD1 _ m5).2.1, hsc _ m5]
  obtain ⟨fs2, e2, char2⟩ :=
    tool_section_fresh sym
      (s := ⟨fs1, true, s.requests ++ [openshift_install_tar_gz_url ocpR]⟩)
      h2d h2l h2t h2x hn2 pcD2 pcL2 m4 m5 m6
      (path_ne_ocl_ocv d ocpR) (path_ne_empty_ocv d ocpR)
      (by decide) (by decide) (by decide)
  have es1 : ("/tmp/openshift_install" : String) ++ "/" ++ "openshift-install" =
      "/tmp/openshift_install/openshift-install" := by decide
  have es2 : ("/tmp/oc" : String) ++ "/" ++ "oc" = "/tmp/oc/oc" := by decide
  rw [es1] at e1
  rw [es2] at e2
  refine ⟨fs2, ?_, ?_⟩
  · rw [process_state]
    simp [e1, e2, R.bind]
  · intro q
    rw [char2 q, char1 q]

/-- A fresh `state=present` run with `install_type=both`: installs
`okd-install` from the OKD release and `openshift-install` plus `oc` from the
OCP release, requesting the three corresponding URLs. -/
theorem present_both_fresh
    (sym : Bool) {s : ModState} {d okdR ocpR c1 c2 c3 rsn1 rsn2 rsn3 : String}
    {net : Network}
    (hdd : DirDisjoint d okdR ocpR)
    (h0 : ∀ p ∈ managed_paths d okdR ocpR, FS.lookup s.fs p = none)
    (hsc : ∀ p ∈ scratch_paths, FS.lookup s.fs p = none)
    (hn1 : net (okd_install_tar_gz_url okdR) =
      .ok ⟨200, rsn1, .tarGz [("openshift-install", c1)]⟩)
    (hn2 : net (openshift_install_tar_gz_url ocpR) =
      .ok ⟨200, rsn2, .tarGz [("openshift-install", c2)]⟩)
    (hn3 : net (openshift_oc_install_tar_gz_url ocpR) =
      .ok ⟨200, rsn3, .tarGz [("oc", c3)]⟩) :
    ∃ fs3 : FS,
      process_state sym d "both" okdR ocpR "present" net s =
        .ok ⟨fs3, true,
          s.requests ++ [okd_install_tar_gz_url okdR, openshift_install_tar_gz_url ocpR,
            openshift_oc_install_tar_gz_url ocpR]⟩ ∧
      ∀ q, FS.lookup fs3 q =
        if q = "/tmp/oc.tar.gz" ∨ q = "/tmp/oc" ∨ pathUnder "/tmp/oc" q = true then none
        else if sym = true ∧ q = d ++ "/oc" then some (.symlink (d ++ "/oc-" ++ ocpR))
        else if q = d ++ "/oc-" ++ ocpR then some (.file (.raw c3) 509)
        else if q = "/tmp/openshift_install.tar.gz" ∨ q = "/tmp/openshift_install"
              ∨ pathUnder "/tmp/openshift_install" q = true then none
        else if sym = true ∧ q = d ++ "/openshift-install" then
          some (.symlink (d ++ "/openshift-install-" ++ ocpR))
        else if q = d ++ "/openshift-install-" ++ ocpR then some (.file (.raw c2) 509)
        else if q = "/tmp/okd_install.tar.gz" ∨ q = "/tmp/okd_install"
              ∨ pathUnder "/tmp/okd_install" q = true then none
        else if sym = true ∧ q = d ++ "/okd-install" then
          some (.symlink (d ++ "/okd-install-" ++ okdR))
        else if q = d ++ "/okd-install-" ++ okdR then some (.file (.raw c1) 509)
        else FS.lookup s.fs q := by
  have m1 : ("/tmp/okd_install.tar.gz" : String) ∈ scratch_paths := by decide
  have m2 : ("/tmp/okd_install" : String) ∈ scratch_paths := by decide
  have m3 : (("/tmp/okd_install" : String) ++ "/" ++ "openshift-install") ∈ scratch_paths := by
    decide
  have m4 : ("/tmp/openshift_install.tar.gz" : String) ∈ scratch_paths := by decide
  have m5 : ("/tmp/openshift_install" : String) ∈ scratch_paths := by decide
  have m6 : (("/tmp/openshift_install" : String) ++ "/" ++ "openshift-install") ∈ scratch_paths := by
    decide
  have m7 : ("/tmp/oc.tar.gz" : String) ∈ scratch_paths := by decide
  have m8 : ("/tmp/oc" : String) ∈ scratch_paths := by decide
  have m9 : (("/tmp/oc" : String) ++ "/" ++ "oc") ∈ scratch_paths := by decide
  have pcD1 : PathClear (d ++ "/okd-install-" ++ okdR) := hdd _ (by simp [managed_paths])
  have pcL1 : PathClear (d ++ "/okd-install") := hdd _ (by simp [managed_paths])
  have pcD2 : PathClear (d ++ "/openshift-install-" ++ ocpR) := hdd _ (by simp [managed_paths])
  have pcL2 : PathClear (d ++ "/openshift-install") := hdd _ (by simp [managed_paths])
  have pcD3 : PathClear (d ++ "/oc-" ++ ocpR) := hdd _ (by simp [managed_paths])
  have pcL3 : PathClear (d ++ "/oc") := hdd _ (by simp [managed_paths])
  have hd1 : FS.lookup s.fs (d ++ "/okd-install-" ++ okdR) = none :=
    h0 _ (by simp [managed_paths])
  have hl1 : FS.lookup s.fs (d ++ "/okd-install") = none :=
    h0 _ (by simp [managed_paths])
  obtain ⟨fs1, e1, char1⟩ :=
    tool_section_fresh sym hd1 hl1 (hsc _ m1) (hsc _ m2) hn1 pcD1 pcL1 m1 m2 m3
      (path_ne_okdl_okdv d okdR) (path_ne_empty_okdv d okdR)
      (by decide) (by decide) (by decide)
  have hd2 : FS.lookup s.fs (d ++ "/openshift-install-" ++ ocpR) = none :=
    h0 _ (by simp [managed_paths])
  have hl2 : FS.lookup s.fs (d ++ "/openshift-install") = none :=
    h0 _ (by simp [managed_paths])
  have h2d : FS.lookup fs1 (d ++ "/openshift-install-" ++ ocpR) = none := by
    rw [char1]
    simp [PathClear.scratch_clause_false pcD2 m1 m2, hd2]
  have h2l : FS.lookup fs1 (d ++ "/openshift-install") = none := by
    rw [char1]
    simp [PathClear.scratch_clause_false pcL2 m1 m2, hl2]
  have h2t : FS.lookup fs1 "/tmp/openshift_install.tar.gz" = none := by
    rw [char1]
    simp [(pcL1 _ m4).2.1, (pcD1 _ m4).2.1, hsc _ m4]
  have h2x : FS.lookup fs1 "/tmp/openshift_install" = none := by
    rw [char1]
    simp [(pcL1 _ m5).2.1, (pcD1 _ m5).2.1, hsc _ m5]
  obtain ⟨fs2, e2, char2⟩ :=
    tool_section_fresh sym
      (s := ⟨fs1, true, s.requests ++ [okd_install_tar_gz_url okdR]⟩)
      h2d h2l h2t h2x hn2 pcD2 pcL2 m4 m5 m6
      (path_ne_osl_osv d ocpR) (path_ne_empty_osv d ocpR)
      (by decide) (by decide) (by decide)
  have hd3 : FS.lookup s.fs (d ++ "/oc-" ++ ocpR) = none :=
    h0 _ (by simp [managed_paths])
  have hl3 : FS.lookup s.fs (d ++ "/oc") = none :=
    h0 _ (by simp [managed_paths])
  have h3d : FS.lookup fs2 (d ++ "/oc-" ++ ocpR) = none := by
    rw [char2, char1]
    simp [PathClear.scratch_clause_false pcD3 m1 m2,
      PathClear.scratch_clause_false pcD3 m4 m5, hd3]
  have h3l : FS.lookup fs2 (d ++ "/oc") = none := by
    rw [char2, char1]
    simp [PathClear.scratch_clause_false pcL3 m1 m2,
      PathClear.scratch_clause_false pcL3 m4 m5, hl3]
  have h3t : FS.lookup fs2 "/tmp/oc.tar.gz" = none := by
    rw [char2, char1]
    simp [(pcL1 _ m7).2.1, (pcD1 _ m7).2.1, (pcL2 _ m7).2.1, (pcD2 _ m7).2.1, hsc _ m7]
  have h3x : FS.lookup fs2 "/tmp/oc" = none := by
    rw [char2, char1]
    simp [(pcL1 _ m8).2.1, (pcD1 _ m8).2.1, (pcL2 _ m8).2.1, (pcD2 _ m8).2.1, hsc _ m8]
  obtain ⟨fs3, e3, char3⟩ :=
    tool_section_fresh sym
      (s := ⟨fs2, true, s.requests ++ [okd_install_tar_gz_url okdR]
        ++ [openshift_install_tar_gz_url ocpR]⟩)
      h3d h3l h3t h3x hn3 pcD3 pcL3 m7 m8 m9
      (path_ne_ocl_ocv d ocpR) (path_ne_empty_ocv d ocpR)
      (by decide) (by decide) (by decide)
  have es1 : ("/tmp/okd_install" : String) ++ "/" ++ "openshift-install" =
      "/tmp/okd_install/openshift-install" := by decide
  have es2 : ("/tmp/openshift_install" : String) ++ "/" ++ "openshift-install" =
      "/tmp/openshift_install/openshift-install" := by decide
  have es3 : ("/tmp/oc" : String) ++ "/" ++ "oc" = "/tmp/oc/oc" := by decide
  rw [es1] at e1
  rw [es2] at e2
  rw [es3] at e3
  have ea : s.requests ++ [okd_install_tar_gz_url okdR] ++ [openshift_install_tar_gz_url ocpR] =
      s.requests ++ [okd_install_tar_gz_url okdR, openshift_install_tar_gz_url ocpR] := by
    simp
  rw [ea] at e3
  refine ⟨fs3, ?_, ?_⟩
  · rw [process_state]
    simp [e1, e2, e3, R.bind]
  · intro q
    rw [char3 q, char2 q, char1 q]

/-! ### No-op evaluation of already-converged runs -/

/-- A per-tool block on an already converged state (artifact present, symlink
correct when requested, scratch clean) does nothing at all. -/
theorem tool_section_converged
    (sym : Bool) {s : ModState} {dest link tar xdir : String} {n : FSNode}
    (hd : FS.lookup s.fs dest = some n)
    (hl : sym = true → FS.lookup s.fs link = some (.symlink dest))
    (ht : FS.lookup s.fs tar = none)
    (hx : FS.lookup s.fs xdir = none)
    (src url : String) (net : Network) :
    tool_section sym dest link tar xdir src url net s = .ok s := by
  have hfe : file_exists s.fs dest = true := by simp [file_exists, hd]
  cases sym with
  | true =>
    rw [tool_section]
    simp [hfe, create_symlink_match (hl rfl), delete_file_noop ht,
      delete_file_noop hx, R.bind]
  | false =>
    rw [tool_section]
    simp [hfe, delete_file_noop ht, delete_file_noop hx, R.bind]

/-- A `state=present`, `install_type=okd` run on a converged state is a
no-op. -/
theorem present_okd_noop
    (sym : Bool) {s : ModState} {d okdR ocpR : String} {net : Network}
    {n1 n2 : FSNode}
    (hd1 : FS.lookup s.fs (d ++ "/okd-install-" ++ okdR) = some n1)
    (hl1 : sym = true →
      FS.lookup s.fs (d ++ "/okd-install") = some (.symlink (d ++ "/okd-install-" ++ okdR)))
    (hd2 : FS.lookup s.fs (d ++ "/oc-" ++ okdR) = some n2)
    (hl2 : sym = true →
      FS.lookup s.fs (d ++ "/oc") = some (.symlink (d ++ "/oc-" ++ okdR)))
    (hsc : ∀ p ∈ scratch_paths, FS.lookup s.fs p = none) :
    process_state sym d "okd" okdR ocpR "present" net s = .ok s := by
  have t1 : FS.lookup s.fs "/tmp/okd_install.tar.gz" = none := hsc _ (by decide)
  have t2 : FS.lookup s.fs "/tmp/okd_install" = none := hsc _ (by decide)
  have t3 : FS.lookup s.fs "/tmp/openshift_install.tar.gz" = none := hsc _ (by decide)
  have t4 : FS.lookup s.fs "/tmp/openshift_install" = none := hsc _ (by decide)
  have t5 : FS.lookup s.fs "/tmp/oc.tar.gz" = none := hsc _ (by decide)
  have t6 : FS.lookup s.fs "/tmp/oc" = none := hsc _ (by decide)
  rw [process_state]
  simp [tool_section_converged sym hd1 hl1 t1 t2,
    tool_section_converged sym hd2 hl2 t5 t6, R.bind]

/-- A `state=present`, `install_type=ocp` run on a converged state is a
no-op. -/
theorem present_ocp_noop
    (sym : Bool) {s : ModState} {d okdR ocpR : String} {net : Network}
    {n1 n2 : FSNode}
    (hd1 : FS.lookup s.fs (d ++ "/openshift-install-" ++ ocpR) = some n1)
    (hl1 : sym = true →
      FS.lookup s.fs (d ++ "/openshift-install") =
        some (.symlink (d ++ "/openshift-install-" ++ ocpR)))
    (hd2 : FS.lookup s.fs (d ++ "/oc-" ++ ocpR) = some n2)
    (hl2 : sym = true →
      FS.lookup s.fs (d ++ "/oc") = some (.symlink (d ++ "/oc-" ++ ocpR)))
    (hsc : ∀ p ∈ scratch_paths, FS.lookup s.fs p = none) :
    process_state sym d "ocp" okdR ocpR "present" net s = .ok s := by
  have t1 : FS.lookup s.fs "/tmp/okd_install.tar.gz" = none := hsc _ (by decide)
  have t2 : FS.lookup s.fs "/tmp/okd_install" = none := hsc _ (by decide)
  have t3 : FS.lookup s.fs "/tmp/openshift_install.tar.gz" = none := hsc _ (by decide)
  have t4 : FS.lookup s.fs "/tmp/openshift_install" = none := hsc _ (by decide)
  have t5 : FS.lookup s.fs "/tmp/oc.tar.gz" = none := hsc _ (by decide)
  have t6 : FS.lookup s.fs "/tmp/oc" = none := hsc _ (by decide)
  rw [process_state]
  simp [tool_section_converged sym hd1 hl1 t3 t4,
    tool_section_converged sym hd2 hl2 t5 t6, R.bind]

/-- A `state=present`, `install_type=both` run on a converged state is a
no-op. -/
theorem present_both_noop
    (sym : Bool) {s : ModState} {d okdR ocpR : String} {net : Network}
    {n1 n2 n3 : FSNode}
    (hd1 : FS.lookup s.fs (d ++ "/okd-install-" ++ okdR) = some n1)
    (hl1 : sym = true →
      FS.lookup s.fs (d ++ "/okd-install") = some (.symlink (d ++ "/okd-install-" ++ okdR)))
    (hd2 : FS.lookup s.fs (d ++ "/openshift-install-" ++ ocpR) = some n2)
    (hl2 : sym = true →
      FS.lookup s.fs (d ++ "/openshift-install") =
        some (.symlink (d ++ "/openshift-install-" ++ ocpR)))
    (hd3 : FS.lookup s.fs (d ++ "/oc-" ++ ocpR) = some n3)
    (hl3 : sym = true →
      FS.lookup s.fs (d ++ "/oc") = some (.symlink (d ++ "/oc-" ++ ocpR)))
    (hsc : ∀ p ∈ scratch_paths, FS.lookup s.fs p = none) :
    process_state sym d "both" okdR ocpR "present" net s = .ok s := by
  have t1 : FS.lookup s.fs "/tmp/okd_install.tar.gz" = none := hsc _ (by decide)
  have t2 : FS.lookup s.fs "/tmp/okd_install" = none := hsc _ (by decide)
  have t3 : FS.lookup s.fs "/tmp/openshift_install.tar.gz" = none := hsc _ (by decide)
  have t4 : FS.lookup s.fs "/tmp/openshift_install" = none := hsc _ (by decide)
  have t5 : FS.lookup s.fs "/tmp/oc.tar.gz" = none := hsc _ (by decide)
  have t6 : FS.lookup s.fs "/tmp/oc" = none := hsc _ (by decide)
  rw [process_state]
  simp [tool_section_converged sym hd1 hl1 t1 t2,
    tool_section_converged sym hd2 hl2 t3 t4,
    tool_section_converged sym hd3 hl3 t5 t6, R.bind]

/-! ### C1 — idempotence of ensure-present -/

/-- C1: for every input (install type among the module's choices, releases,
directory, symlink flag), starting from a filesystem where nothing is
installed, with an executable directory clear of the scratch area, and with
the network serving valid archives, running `process_state` with
`state=present` twice in succession yields `changed=true` on the first run
and `changed=false` on the second, and the filesystem after the second run is
identical to the filesystem after the first. -/
theorem spec_c1_ensure_present_idempotent
    (sym : Bool) (d install_type okdR ocpR cA cB cC cD rA rB rC rD : String)
    (net : Network)
    (hit : install_type = "okd" ∨ install_type = "ocp" ∨ install_type = "both")
    (hdd : DirDisjoint d okdR ocpR)
    (hn1 : net (okd_install_tar_gz_url okdR) =
      .ok ⟨200, rA, .tarGz [("openshift-install", cA)]⟩)
    (hn2 : net (okd_oc_tar_gz_url okdR) = .ok ⟨200, rB, .tarGz [("oc", cB)]⟩)
    (hn3 : net (openshift_install_tar_gz_url ocpR) =
      .ok ⟨200, rC, .tarGz [("openshift-install", cC)]⟩)
    (hn4 : net (openshift_oc_install_tar_gz_url ocpR) =
      .ok ⟨200, rD, .tarGz [("oc", cD)]⟩) :
    ∃ fs1 urls,
      process_state sym d install_type okdR ocpR "present" net ⟨[], false, []⟩ =
        .ok ⟨fs1, true, urls⟩ ∧
      process_state sym d install_type okdR ocpR "present" net ⟨fs1, false, []⟩ =
        .ok ⟨fs1, false, []⟩ := by
  have m1 : ("/tmp/okd_install.tar.gz" : String) ∈ scratch_paths := by decide
  have m2 : ("/tmp/okd_install" : String) ∈ scratch_paths := by decide
  have m4 : ("/tmp/openshift_install.tar.gz" : String) ∈ scratch_paths := by decide
  have m5 : ("/tmp/openshift_install" : String) ∈ scratch_paths := by decide
  have m7 : ("/tmp/oc.tar.gz" : String) ∈ scratch_paths := by decide
  have m8 : ("/tmp/oc" : String) ∈ scratch_paths := by decide
  have pcOkdV : PathClear (d ++ "/okd-install-" ++ okdR) := hdd _ (by simp [managed_paths])
  have pcOkdL : PathClear (d ++ "/okd-install") := hdd _ (by simp [managed_paths])
  have pcOsV : PathClear (d ++ "/openshift-install-" ++ ocpR) := hdd _ (by simp [managed_paths])
  have pcOsL : PathClear (d ++ "/openshift-install") := hdd _ (by simp [managed_paths])
  have pcOcVk : PathClear (d ++ "/oc-" ++ okdR) := hdd _ (by simp [managed_paths])
  have pcOcVp : PathClear (d ++ "/oc-" ++ ocpR) := hdd _ (by simp [managed_paths])
  have pcOcL : PathClear (d ++ "/oc") := hdd _ (by simp [managed_paths])
  rcases hit with rfl | rfl | rfl
  · obtain ⟨fs1, e1, char1⟩ :=
      present_okd_fresh sym (s := ⟨[], false, []⟩) hdd (fun p _ => rfl) (fun p _ => rfl) hn1 hn2
    have hd1 : FS.lookup fs1 (d ++ "/okd-install-" ++ okdR) = some (.file (.raw cA) 509) := by
      rw [char1]
      simp [PathClear.scratch_clause_false pcOkdV m7 m8,
        PathClear.scratch_clause_false pcOkdV m1 m2]
    have hl1 : sym = true →
        FS.lookup fs1 (d ++ "/okd-install") =
          some (.symlink (d ++ "/okd-install-" ++ okdR)) := by
      intro hs
      rw [char1]
      simp [hs, PathClear.scratch_clause_false pcOkdL m7 m8,
        PathClear.scratch_clause_false pcOkdL m1 m2]
    have hd2 : FS.lookup fs1 (d ++ "/oc-" ++ okdR) = some (.file (.raw cB) 509) := by
      rw [char1]
      simp [PathClear.scratch_clause_false pcOcVk m7 m8]
    have hl2 : sym = true →
        FS.lookup fs1 (d ++ "/oc") = some (.symlink (d ++ "/oc-" ++ okdR)) := by
      intro hs
      rw [char1]
      simp [hs, PathClear.scratch_clause_false pcOcL m7 m8]
    have hsc : ∀ p ∈ scratch_paths, FS.lookup fs1 p = none := by
      intro p hp
      rw [char1]
      have f1 := (pcOkdV p hp).2.1
      have f2 := (pcOkdL p hp).2.1
      have f3 := (pcOcVk p hp).2.1
      have f4 := (pcOcL p hp).2.1
      fin_cases hp <;> simp [f1, f2, f3, f4, FS.lookup]
    exact ⟨fs1, _, e1, present_okd_noop sym hd1 hl1 hd2 hl2 hsc⟩
  · obtain ⟨fs1, e1, char1⟩ :=
      present_ocp_fresh sym (s := ⟨[], false, []⟩) hdd (fun p _ => rfl) (fun p _ => rfl) hn3 hn4
    have hd1 : FS.lookup fs1 (d ++ "/openshift-install-" ++ ocpR) =
        some (.file (.raw cC) 509) := by
      rw [char1]
      simp [PathClear.scratch_clause_false pcOsV m7 m8,
        PathClear.scratch_clause_false pcOsV m4 m5]
    have hl1 : sym = true →
        FS.lookup fs1 (d ++ "/openshift-install") =
          some (.symlink (d ++ "/openshift-install-" ++ ocpR)) := by
      intro hs
      rw [char1]
      simp [hs, PathClear.scratch_clause_false pcOsL m7 m8,
        PathClear.scratch_clause_false pcOsL m4 m5]
    have hd2 : FS.lookup fs1 (d ++ "/oc-" ++ ocpR) = some (.file (.raw cD) 509) := by
      rw [char1]
      simp [PathClear.scratch_clause_false pcOcVp m7 m8]
    have hl2 : sym = true →
        FS.lookup fs1 (d ++ "/oc") = some (.symlink (d ++ "/oc-" ++ ocpR)) := by
      intro hs
      rw [char1]
      simp [hs, PathClear.scratch_clause_false pcOcL m7 m8]
    have hsc : ∀ p ∈ scratch_paths, FS.lookup fs1 p = none := by
      intro p hp
      rw [char1]
      have f1 := (pcOsV p hp).2.1
      have f2 := (pcOsL p hp).2.1
      have f3 := (pcOcVp p hp).2.1
      have f4 := (pcOcL p hp).2.1
      fin_cases hp <;> simp [f1, f2, f3, f4, FS.lookup]
    exact ⟨fs1, _, e1, present_ocp_noop sym hd1 hl1 hd2 hl2 hsc⟩
  · obtain ⟨fs1, e1, char1⟩ :=
      present_both_fresh sym (s := ⟨[], false, []⟩) hdd (fun p _ => rfl) (fun p _ => rfl)
        hn1 hn3 hn4
    have hd1 : FS.lookup fs1 (d ++ "/okd-install-" ++ okdR) = some (.file (.raw cA) 509) := by
      rw [char1]
      simp [PathClear.scratch_clause_false pcOkdV m7 m8,
        PathClear.scratch_clause_false pcOkdV m4 m5,
        PathClear.scratch_clause_false pcOkdV m1 m2]
    have hl1 : sym = true →
        FS.lookup fs1 (d ++ "/okd-install") =
          some (.symlink (d ++ "/okd-install-" ++ okdR)) := by
      intro hs
      rw [char1]
      simp [hs, PathClear.scratch_clause_false pcOkdL m7 m8,
        PathClear.scratch_clause_false pcOkdL m4 m5,
        PathClear.scratch_clause_false pcOkdL m1 m2]
    have hd2 : FS.lookup fs1 (d ++ "/openshift-install-" ++ ocpR) =
        some (.file (.raw cC) 509) := by
      rw [char1]
      simp [PathClear.scratch_clause_false pcOsV m7 m8,
        PathClear.scratch_clause_false pcOsV m4 m5]
    have hl2 : sym = true →
        FS.lookup fs1 (d ++ "/openshift-install") =
          some (.symlink (d ++ "/openshift-install-" ++ ocpR)) := by
      intro hs
      rw [char1]
      simp [hs, PathClear.scratch_clause_false pcOsL m7 m8,
        PathClear.scratch_clause_false pcOsL m4 m5]
    have hd3 : FS.lookup fs1 (d ++ "/oc-" ++ ocpR) = some (.file (.raw cD) 509) := by
      rw [char1]
      simp [PathClear.scratch_clause_false pcOcVp m7 m8]
    have hl3 : sym = true →
        FS.lookup fs1 (d ++ "/oc") = some (.symlink (d ++ "/oc-" ++ ocpR)) := by
      intro hs
      rw [char1]
      simp [hs, PathClear.scratch_clause_false pcOcL m7 m8]
    have hsc : ∀ p ∈ scratch_paths, FS.lookup fs1 p = none := by
      intro p hp
      rw [char1]
      have f1 := (pcOkdV p hp).2.1
      have f2 := (pcOkdL p hp).2.1
      have f3 := (pcOsV p hp).2.1
      have f4 := (pcOsL p hp).2.1
      have f5 := (pcOcVp p hp).2.1
      have f6 := (pcOcL p hp).2.1
      fin_cases hp <;> simp [f1, f2, f3, f4, f5, f6, FS.lookup]
    exact ⟨fs1, _, e1, present_both_noop sym hd1 hl1 hd2 hl2 hd3 hl3 hsc⟩

/-- Witness for C1 at a concrete input: OKD install into `/usr/local/bin`
with the symlink requested. -/
theorem spec_c1_witness :
    DirDisjoint "/usr/local/bin" "4.9.0-0.okd-2021-11-28-035710" "4.9.10" ∧
    (∃ fs1 urls,
      process_state true "/usr/local/bin" "okd" "4.9.0-0.okd-2021-11-28-035710" "4.9.10"
          "present" witness_net ⟨[], false, []⟩ = .ok ⟨fs1, true, urls⟩ ∧
      process_state true "/usr/local/bin" "okd" "4.9.0-0.okd-2021-11-28-035710" "4.9.10"
          "present" witness_net ⟨fs1, false, []⟩ = .ok ⟨fs1, false, []⟩) :=
  ⟨by decide,
    spec_c1_ensure_present_idempotent true "/usr/local/bin" "okd"
      "4.9.0-0.okd-2021-11-28-035710" "4.9.10"
      "okd-installer-bytes" "okd-oc-bytes" "ocp-installer-bytes" "ocp-oc-bytes"
      "OK" "OK" "OK" "OK" witness_net (Or.inl rfl) (by decide)
      (by decide) (by decide) (by decide) (by decide)⟩

/-! ### C3 — symlink convergence and repair -/

/-- C3: when the existing symlink at the link path already points at the
desired target, `create_symlink` performs no filesystem mutation and leaves
the whole module state (including the changed flag) untouched; when it points
at a different target, `create_symlink` replaces it with a symlink to the
desired target and sets `changed=true`, leaving every other path untouched. -/
theorem spec_c3_symlink_convergence_and_repair (link target t : String) (s : ModState) :
    (FS.lookup s.fs link = some (.symlink target) →
      create_symlink link target s = .ok s) ∧
    (FS.lookup s.fs link = some (.symlink t) → t ≠ target →
      ∃ fs1, create_symlink link target s = .ok ⟨fs1, true, s.requests⟩ ∧
        FS.lookup fs1 link = some (.symlink target) ∧
        ∀ q, q ≠ link → FS.lookup fs1 q = FS.lookup s.fs q) := by
  constructor
  · intro h
    exact create_symlink_match h
  · intro h hne
    refine ⟨_, create_symlink_repair h hne, ?_, ?_⟩
    · simp
    · intro q hq
      simp [hq]

/-- Witness for C3 at a concrete state holding a stale symlink. -/
theorem spec_c3_witness :
    (FS.lookup [("/usr/local/bin/oc", FSNode.symlink "/usr/local/bin/oc-4.9.9")]
        "/usr/local/bin/oc" = some (.symlink "/usr/local/bin/oc-4.9.9")) ∧
    ("/usr/local/bin/oc-4.9.9" : String) ≠ "/usr/local/bin/oc-4.9.10" ∧
    (∃ fs1,
      create_symlink "/usr/local/bin/oc" "/usr/local/bin/oc-4.9.10"
          ⟨[("/usr/local/bin/oc", FSNode.symlink "/usr/local/bin/oc-4.9.9")], false, []⟩ =
        .ok ⟨fs1, true, []⟩ ∧
      FS.lookup fs1 "/usr/local/bin/oc" = some (.symlink "/usr/local/bin/oc-4.9.10") ∧
      ∀ q, q ≠ "/usr/local/bin/oc" →
        FS.lookup fs1 q =
          FS.lookup [("/usr/local/bin/oc", FSNode.symlink "/usr/local/bin/oc-4.9.9")] q) :=
  ⟨by decide, by decide,
    (spec_c3_symlink_convergence_and_repair "/usr/local/bin/oc" "/usr/local/bin/oc-4.9.10"
      "/usr/local/bin/oc-4.9.9"
      ⟨[("/usr/local/bin/oc", FSNode.symlink "/usr/local/bin/oc-4.9.9")], false, []⟩).2
      (by decide) (by decide)⟩

/-! ### C8 — what the symlink step does to arbitrary occupants of the link
path -/

/-- C8 counterexample: with a regular (non-symlink) file occupying the link
path, `create_symlink` does not replace it — `os.readlink` raises
`OSError(EINVAL)`, the generic handler turns it into `fail_json`, and the
filesystem is left untouched with the file still in place. -/
theorem spec_c8_counterexample :
    create_symlink "/usr/local/bin/oc" "/usr/local/bin/oc-4.9.10"
        ⟨[("/usr/local/bin/oc", FSNode.file (.raw "plain-binary") 420)], false, []⟩ =
      .fail (einval_msg "/usr/local/bin/oc")
        ⟨[("/usr/local/bin/oc", FSNode.file (.raw "plain-binary") 420)], false, []⟩ := by
  decide

/-- C8 amended: when the link path is occupied by a symlink whose target
differs, `create_symlink` removes it and creates the new symlink; but when
the link path is occupied by a regular file or a directory, `os.readlink`
raises `OSError(EINVAL)` and `create_symlink` fails without modifying the
filesystem. -/
theorem spec_c8_symlink_step_replacement (link target t : String) (s : ModState) :
    (FS.lookup s.fs link = some (.symlink t) → t ≠ target →
      ∃ fs1, create_symlink link target s = .ok ⟨fs1, true, s.requests⟩ ∧
        FS.lookup fs1 link = some (.symlink target)) ∧
    (∀ c m, FS.lookup s.fs link = some (.file c m) →
      create_symlink link target s = .fail (einval_msg link) s) ∧
    (FS.lookup s.fs link = some .dir →
      create_symlink link target s = .fail (einval_msg link) s) := by
  refine ⟨?_, ?_, ?_⟩
  · intro h hne
    exact ⟨_, create_symlink_repair h hne, by simp⟩
  · intro c m h
    exact create_symlink_file h
  · intro h
    exact create_symlink_dir h

/-- Witness for the amended C8 at concrete states. -/
theorem spec_c8_witness :
    (FS.lookup [("/x/oc", FSNode.file (.raw "data") 420)] "/x/oc" =
      some (.file (.raw "data") 420)) ∧
    (create_symlink "/x/oc" "/x/oc-1" ⟨[("/x/oc", FSNode.file (.raw "data") 420)], false, []⟩ =
      .fail (einval_msg "/x/oc") ⟨[("/x/oc", FSNode.file (.raw "data") 420)], false, []⟩) :=
  ⟨by decide,
    (spec_c8_symlink_step_replacement "/x/oc" "/x/oc-1" ""
        ⟨[("/x/oc", FSNode.file (.raw "data") 420)], false, []⟩).2.1
      (.raw "data") 420 (by decide)⟩

/-! ### C10 — the changed flag is set before the download is attempted -/

/-- C10: `download_file` sets `changed` before attempting the HTTP request,
so a failed download (non-200 status or transport error) still reports
`changed=true` even though the filesystem was not modified. -/
theorem spec_c10_changed_set_before_download
    (path url : String) (net : Network) (s : ModState)
    (h : FS.lookup s.fs path = none) :
    (∀ resp, net url = .ok resp → resp.status ≠ 200 →
      download_file path url net s =
        .fail (download_fail_msg url resp.status resp.reason)
          ⟨s.fs, true, s.requests ++ [url]⟩) ∧
    (∀ exn, net url = .error exn →
      download_file path url net s = .fail exn ⟨s.fs, true, s.requests ++ [url]⟩) := by
  constructor
  · intro resp hnet hst
    exact download_file_bad_status h hnet hst
  · intro exn hnet
    exact download_file_transport h hnet

/-- Witness for C10: a 503 response at a concrete state reports
`changed=true` with the filesystem untouched. -/
theorem spec_c10_witness :
    (FS.lookup [] "/tmp/oc.tar.gz" = none) ∧
    (download_file "/tmp/oc.tar.gz" "https://example.invalid/oc.tar.gz" witness_net_bad
        ⟨[], false, []⟩ =
      .fail (download_fail_msg "https://example.invalid/oc.tar.gz" 503 "Service Unavailable")
        ⟨[], true, ["https://example.invalid/oc.tar.gz"]⟩) :=
  ⟨rfl,
    (spec_c10_changed_set_before_download "/tmp/oc.tar.gz"
        "https://example.invalid/oc.tar.gz" witness_net_bad ⟨[], false, []⟩ rfl).1
      ⟨503, "Service Unavailable", .raw ""⟩ rfl (by decide)⟩

/-! ### C6 — absent-on-absent -/

/-- C6: deleting an already-absent path is a no-op, not an error; and a
`state=absent` run on a filesystem where none of the targeted paths
(versioned artifacts, symlinks, scratch files) exist completes without error
and reports `changed=false`. -/
theorem spec_c6_absent_on_absent
    (sym : Bool) (d install_type okdR ocpR : String) (net : Network) (fs0 : FS)
    (reqs : List String)
    (hit : install_type = "okd" ∨ install_type = "ocp" ∨ install_type = "both")
    (h0 : ∀ p ∈ managed_paths d okdR ocpR, FS.lookup fs0 p = none)
    (hsc : ∀ p ∈ scratch_paths, FS.lookup fs0 p = none) :
    (∀ (s : ModState) (p : String), FS.lookup s.fs p = none → delete_file p s = .ok s) ∧
    process_state sym d install_type okdR ocpR "absent" net ⟨fs0, false, reqs⟩ =
      .ok ⟨fs0, false, reqs⟩ := by
  refine ⟨fun s p h => delete_file_noop h, ?_⟩
  have t1 : FS.lookup fs0 "/tmp/okd_install.tar.gz" = none := hsc _ (by decide)
  have t2 : FS.lookup fs0 "/tmp/okd_install" = none := hsc _ (by decide)
  have t3 : FS.lookup fs0 "/tmp/openshift_install.tar.gz" = none := hsc _ (by decide)
  have t4 : FS.lookup fs0 "/tmp/openshift_install" = none := hsc _ (by decide)
  have t5 : FS.lookup fs0 "/tmp/oc.tar.gz" = none := hsc _ (by decide)
  have t6 : FS.lookup fs0 "/tmp/oc" = none := hsc _ (by decide)
  have v1 : FS.lookup fs0 (d ++ "/okd-install-" ++ okdR) = none := h0 _ (by simp [managed_paths])
  have v2 : FS.lookup fs0 (d ++ "/oc-" ++ okdR) = none := h0 _ (by simp [managed_paths])
  have v3 : FS.lookup fs0 (d ++ "/openshift-install-" ++ ocpR) = none :=
    h0 _ (by simp [managed_paths])
  have v4 : FS.lookup fs0 (d ++ "/oc-" ++ ocpR) = none := h0 _ (by simp [managed_paths])
  have l1 : FS.lookup fs0 (d ++ "/okd-install") = none := h0 _ (by simp [managed_paths])
  have l2 : FS.lookup fs0 (d ++ "/oc") = none := h0 _ (by simp [managed_paths])
  have l3 : FS.lookup fs0 (d ++ "/openshift-install") = none := h0 _ (by simp [managed_paths])
  have dn : ∀ p, FS.lookup fs0 p = none →
      delete_file p (⟨fs0, false, reqs⟩ : ModState) = .ok ⟨fs0, false, reqs⟩ :=
    fun p h => delete_file_noop h
  rcases hit with rfl | rfl | rfl <;> cases sym <;>
    · rw [process_state]
      simp [dn _ t1, dn _ t2, dn _ t3, dn _ t4, dn _ t5, dn _ t6, dn _ v1, dn _ v2,
        dn _ v3, dn _ v4, dn _ l1, dn _ l2, dn _ l3, R.bind]

/-- Witness for C6: removing never-installed tools from an empty filesystem. -/
theorem spec_c6_witness :
    (∀ (s : ModState) (p : String), FS.lookup s.fs p = none → delete_file p s = .ok s) ∧
    process_state true "/usr/local/bin" "both" "4.9.0-0.okd-2021-11-28-035710" "4.9.10"
        "absent" witness_net ⟨[], false, []⟩ = .ok ⟨[], false, []⟩ :=
  spec_c6_absent_on_absent true "/usr/local/bin" "both" "4.9.0-0.okd-2021-11-28-035710"
    "4.9.10" witness_net [] [] (Or.inr (Or.inr rfl)) (fun _ _ => rfl) (fun _ _ => rfl)

/-! ### C5 — download failure propagation -/

/-- A per-tool block whose download gets a non-200 response fails with the
download message, leaving the filesystem untouched. -/
theorem tool_section_download_fail
    (sym : Bool) {s : ModState} {dest tar url : String} {net : Network}
    {resp : HttpResponse} (link xdir src : String)
    (hd : FS.lookup s.fs dest = none)
    (ht : FS.lookup s.fs tar = none)
    (hnet : net url = .ok resp) (hst : resp.status ≠ 200) :
    tool_section sym dest link tar xdir src url net s =
      .fail (download_fail_msg url resp.status resp.reason)
        ⟨s.fs, true, s.requests ++ [url]⟩ := by
  have hfe : file_exists s.fs dest = false := by simp [file_exists, hd]
  rw [tool_section]
  simp [hfe, download_file_bad_status ht hnet hst, R.bind]

/-- C5: a non-200 response aborts the whole invocation with the download
failure message (carrying the status and the reason), and nothing is promoted
to the versioned destination.  Stated for the `install_type=okd` run: first
arm — the first download (okd-install) fails; second arm — the first tool
installs fine and the second download (oc) fails; in both arms the reported
filesystem still has nothing at the affected destination. -/
theorem spec_c5_download_failure_propagation
    (sym : Bool) (d okdR ocpR c1 rsn1 : String) (net : Network) :
    (∀ (s : ModState) (resp : HttpResponse),
      FS.lookup s.fs (d ++ "/okd-install-" ++ okdR) = none →
      FS.lookup s.fs "/tmp/okd_install.tar.gz" = none →
      net (okd_install_tar_gz_url okdR) = .ok resp → resp.status ≠ 200 →
      process_state sym d "okd" okdR ocpR "present" net s =
        .fail (download_fail_msg (okd_install_tar_gz_url okdR) resp.status resp.reason)
          ⟨s.fs, true, s.requests ++ [okd_install_tar_gz_url okdR]⟩) ∧
    (∀ (s : ModState) (resp : HttpResponse),
      DirDisjoint d okdR ocpR →
      (∀ p ∈ managed_paths d okdR ocpR, FS.lookup s.fs p = none) →
      (∀ p ∈ scratch_paths, FS.lookup s.fs p = none) →
      net (okd_install_tar_gz_url okdR) =
        .ok ⟨200, rsn1, .tarGz [("openshift-install", c1)]⟩ →
      net (okd_oc_tar_gz_url okdR) = .ok resp → resp.status ≠ 200 →
      ∃ fs1,
        process_state sym d "okd" okdR ocpR "present" net s =
          .fail (download_fail_msg (okd_oc_tar_gz_url okdR) resp.status resp.reason)
            ⟨fs1, true, s.requests ++ [okd_install_tar_gz_url okdR, okd_oc_tar_gz_url okdR]⟩ ∧
        FS.lookup fs1 (d ++ "/oc-" ++ okdR) = none) := by
  constructor
  · intro s resp hd ht hnet hst
    rw [process_state]
    simp [tool_section_download_fail sym _ _ _ hd ht hnet hst, R.bind]
  · intro s resp hdd h0 hsc hn1 hn2 hst
    have m1 : ("/tmp/okd_install.tar.gz" : String) ∈ scratch_paths := by decide
    have m2 : ("/tmp/okd_install" : String) ∈ scratch_paths := by decide
    have m4 : ("/tmp/oc.tar.gz" : String) ∈ scratch_paths := by decide
    have m5 : ("/tmp/oc" : String) ∈ scratch_paths := by decide
    have m3 : (("/tmp/okd_install" : String) ++ "/" ++ "openshift-install") ∈ scratch_paths := by
      decide
    have pcD1 : PathClear (d ++ "/okd-install-" ++ okdR) := hdd _ (by simp [managed_paths])
    have pcL1 : PathClear (d ++ "/okd-install") := hdd _ (by simp [managed_paths])
    have pcD2 : PathClear (d ++ "/oc-" ++ okdR) := hdd _ (by simp [managed_paths])
    have hd1 : FS.lookup s.fs (d ++ "/okd-install-" ++ okdR) = none :=
      h0 _ (by simp [managed_paths])
    have hl1 : FS.lookup s.fs (d ++ "/okd-install") = none :=
      h0 _ (by simp [managed_paths])
    obtain ⟨fs1, e1, char1⟩ :=
      tool_section_fresh sym hd1 hl1 (hsc _ m1) (hsc _ m2) hn1 pcD1 pcL1 m1 m2 m3
        (path_ne_okdl_okdv d okdR) (path_ne_empty_okdv d okdR)
        (by decide) (by decide) (by decide)
    have hd2s : FS.lookup s.fs (d ++ "/oc-" ++ okdR) = none := h0 _ (by simp [managed_paths])
    have h2d : FS.lookup fs1 (d ++ "/oc-" ++ okdR) = none := by
      rw [char1]
      simp [PathClear.scratch_clause_false pcD2 m1 m2, hd2s]
    have h2t : FS.lookup fs1 "/tmp/oc.tar.gz" = none := by
      rw [char1]
      simp [(pcL1 _ m4).2.1, (pcD1 _ m4).2.1, hsc _ m4]
    have e2 := tool_section_download_fail sym
      (s := ⟨fs1, true, s.requests ++ [okd_install_tar_gz_url okdR]⟩)
      (d ++ "/oc") "/tmp/oc" "/tmp/oc/oc" h2d h2t hn2 hst
    have es1 : ("/tmp/okd_install" : String) ++ "/" ++ "openshift-install" =
        "/tmp/okd_install/openshift-install" := by decide
    rw [es1] at e1
    refine ⟨fs1, ?_, h2d⟩
    rw [process_state]
    simp [e1, e2, R.bind]

/-- Witness for C5 at a concrete input: the first download gets a 503. -/
theorem spec_c5_witness :
    process_state true "/usr/local/bin" "okd" "4.9.0-0.okd-2021-11-28-035710" "4.9.10"
        "present" witness_net_bad ⟨[], false, []⟩ =
      .fail (download_fail_msg (okd_install_tar_gz_url "4.9.0-0.okd-2021-11-28-035710")
          503 "Service Unavailable")
        ⟨[], true, [okd_install_tar_gz_url "4.9.0-0.okd-2021-11-28-035710"]⟩ :=
  (spec_c5_download_failure_propagation true "/usr/local/bin"
      "4.9.0-0.okd-2021-11-28-035710" "4.9.10" "" "" witness_net_bad).1
    ⟨[], false, []⟩ ⟨503, "Service Unavailable", .raw ""⟩ rfl rfl rfl (by decide)

/-! ### C7 — URL resolution -/

/-- C7 counterexample: the release channel is not chosen by a vendor-marker
substring of the version string.  For the marker-free release `4.9.10` the
spec-modelled resolver picks the mirror URL, yet an `install_type=okd` run
requests the OKD GitHub client URL (and never the mirror URL): the channel
follows the `install_type` parameter, not the version string. -/
theorem spec_c7_counterexample :
    resolve_oc_spec "4.9.10" = openshift_oc_install_tar_gz_url "4.9.10" ∧
    okd_oc_tar_gz_url "4.9.10" ≠ openshift_oc_install_tar_gz_url "4.9.10" ∧
    okd_oc_tar_gz_url "4.9.10" ∈
      (process_state false "/usr/local/bin" "okd" "4.9.10" "4.9.10" "present"
        witness_net_plain ⟨[], false, []⟩).state.requests ∧
    openshift_oc_install_tar_gz_url "4.9.10" ∉
      (process_state false "/usr/local/bin" "okd" "4.9.10" "4.9.10" "present"
        witness_net_plain ⟨[], false, []⟩).state.requests := by
  decide

/-- C7 amended: the three URL equalities from the spec hold, and the channel
is selected by the `install_type` parameter: for any release strings, an
`install_type=okd` run requests exactly the two OKD GitHub archive URLs, and
an `install_type=ocp` run requests exactly the two mirror.openshift.com
archive URLs. -/
theorem spec_c7_url_resolution
    (sym : Bool) (d okdR ocpR cA cB cC cD rA rB rC rD : String) (net : Network)
    (hdd : DirDisjoint d okdR ocpR)
    (hn1 : net (okd_install_tar_gz_url okdR) =
      .ok ⟨200, rA, .tarGz [("openshift-install", cA)]⟩)
    (hn2 : net (okd_oc_tar_gz_url okdR) = .ok ⟨200, rB, .tarGz [("oc", cB)]⟩)
    (hn3 : net (openshift_install_tar_gz_url ocpR) =
      .ok ⟨200, rC, .tarGz [("openshift-install", cC)]⟩)
    (hn4 : net (openshift_oc_install_tar_gz_url ocpR) =
      .ok ⟨200, rD, .tarGz [("oc", cD)]⟩) :
    okd_oc_tar_gz_url "4.9.0-0.okd-2021-11-28-035710" =
      "https://github.com/openshift/okd/releases/download/4.9.0-0.okd-2021-11-28-035710/openshift-client-linux-4.9.0-0.okd-2021-11-28-035710.tar.gz" ∧
    openshift_oc_install_tar_gz_url "4.9.10" =
      "https://mirror.openshift.com/pub/openshift-v4/clients/ocp/4.9.10/openshift-client-linux.tar.gz" ∧
    okd_install_tar_gz_url "4.9.0-0.okd-2021-11-28-035710" =
      "https://github.com/openshift/okd/releases/download/4.9.0-0.okd-2021-11-28-035710/openshift-install-linux-4.9.0-0.okd-2021-11-28-035710.tar.gz" ∧
    (process_state sym d "okd" okdR ocpR "present" net ⟨[], false, []⟩).state.requests =
      [okd_install_tar_gz_url okdR, okd_oc_tar_gz_url okdR] ∧
    (process_state sym d "ocp" okdR ocpR "present" net ⟨[], false, []⟩).state.requests =
      [openshift_install_tar_gz_url ocpR, openshift_oc_install_tar_gz_url ocpR] := by
  refine ⟨by decide, by decide, by decide, ?_, ?_⟩
  · obtain ⟨fs1, e1, _⟩ :=
      present_okd_fresh sym (s := ⟨[], false, []⟩) hdd (fun _ _ => rfl) (fun _ _ => rfl)
        hn1 hn2
    rw [e1]
    simp [R.state]
  · obtain ⟨fs1, e1, _⟩ :=
      present_ocp_fresh sym (s := ⟨[], false, []⟩) hdd (fun _ _ => rfl) (fun _ _ => rfl)
        hn3 hn4
    rw [e1]
    simp [R.state]

/-- Witness for the amended C7 at the spec's example releases. -/
theorem spec_c7_witness :
    DirDisjoint "/usr/local/bin" "4.9.0-0.okd-2021-11-28-035710" "4.9.10" ∧
    (okd_oc_tar_gz_url "4.9.0-0.okd-2021-11-28-035710" =
      "https://github.com/openshift/okd/releases/download/4.9.0-0.okd-2021-11-28-035710/openshift-client-linux-4.9.0-0.okd-2021-11-28-035710.tar.gz" ∧
    openshift_oc_install_tar_gz_url "4.9.10" =
      "https://mirror.openshift.com/pub/openshift-v4/clients/ocp/4.9.10/openshift-client-linux.tar.gz" ∧
    okd_install_tar_gz_url "4.9.0-0.okd-2021-11-28-035710" =
      "https://github.com/openshift/okd/releases/download/4.9.0-0.okd-2021-11-28-035710/openshift-install-linux-4.9.0-0.okd-2021-11-28-035710.tar.gz" ∧
    (process_state false "/usr/local/bin" "okd" "4.9.0-0.okd-2021-11-28-035710" "4.9.10"
        "present" witness_net ⟨[], false, []⟩).state.requests =
      [okd_install_tar_gz_url "4.9.0-0.okd-2021-11-28-035710",
        okd_oc_tar_gz_url "4.9.0-0.okd-2021-11-28-035710"] ∧
    (process_state false "/usr/local/bin" "ocp" "4.9.0-0.okd-2021-11-28-035710" "4.9.10"
        "present" witness_net ⟨[], false, []⟩).state.requests =
      [openshift_install_tar_gz_url "4.9.10", openshift_oc_install_tar_gz_url "4.9.10"]) :=
  ⟨by decide,
    spec_c7_url_resolution false "/usr/local/bin" "4.9.0-0.okd-2021-11-28-035710" "4.9.10"
      "okd-installer-bytes" "okd-oc-bytes" "ocp-installer-bytes" "ocp-oc-bytes"
      "OK" "OK" "OK" "OK" witness_net (by decide) (by decide) (by decide) (by decide)
      (by decide)⟩

/-! ### C9 — unsupported tool identifiers -/

/-- C9 counterexample: `process_state` itself does not reject an identifier
outside the supported set — with `install_type="helm"` it runs the `both`
branch, performing downloads and reporting a change instead of failing. -/
theorem spec_c9_counterexample :
    (process_state false "/usr/local/bin" "helm" "4.9.0-0.okd-2021-11-28-035710" "4.9.10"
        "present" witness_net ⟨[], false, []⟩).isOk = true ∧
    (process_state false "/usr/local/bin" "helm" "4.9.0-0.okd-2021-11-28-035710" "4.9.10"
        "present" witness_net ⟨[], false, []⟩).state.changed = true ∧
    (process_state false "/usr/local/bin" "helm" "4.9.0-0.okd-2021-11-28-035710" "4.9.10"
        "present" witness_net ⟨[], false, []⟩).state.requests ≠ [] := by
  decide

/-- C9 amended: rejection of identifiers outside `{okd, ocp, both}` happens
at the invocation boundary — the argument schema declared in `main` (modelled
from the spec) fails such requests before any action; `process_state` itself
treats every identifier other than `okd` and `ocp` exactly as `both`. -/
theorem spec_c9_unsupported_tool_rejection
    (sym : Bool) (d install_type okdR ocpR st : String) (net : Network) (s : ModState) :
    (¬ (install_type = "okd" ∨ install_type = "ocp" ∨ install_type = "both") →
      run_module sym d install_type okdR ocpR st net s = .fail invalid_install_type_msg s) ∧
    (install_type ≠ "okd" → install_type ≠ "ocp" →
      process_state sym d install_type okdR ocpR "present" net s =
        process_state sym d "both" okdR ocpR "present" net s) := by
  constructor
  · intro h
    rw [run_module]
    rw [if_neg]
    intro hc
    exact h hc.1
  · intro h1 h2
    rw [process_state, process_state]
    simp [h1, h2]

/-- Witness for the amended C9 at `install_type="helm"`. -/
theorem spec_c9_witness :
    (¬ (("helm" : String) = "okd" ∨ ("helm" : String) = "ocp" ∨ ("helm" : String) = "both")) ∧
    (run_module false "/usr/local/bin" "helm" "4.9.0-0.okd-2021-11-28-035710" "4.9.10"
        "present" witness_net ⟨[], false, []⟩ =
      .fail invalid_install_type_msg ⟨[], false, []⟩) ∧
    (process_state false "/usr/local/bin" "helm" "4.9.0-0.okd-2021-11-28-035710" "4.9.10"
        "present" witness_net ⟨[], false, []⟩ =
      process_state false "/usr/local/bin" "both" "4.9.0-0.okd-2021-11-28-035710" "4.9.10"
        "present" witness_net ⟨[], false, []⟩) :=
  ⟨by decide,
    (spec_c9_unsupported_tool_rejection false "/usr/local/bin" "helm"
        "4.9.0-0.okd-2021-11-28-035710" "4.9.10" "present" witness_net ⟨[], false, []⟩).1
      (by decide),
    (spec_c9_unsupported_tool_rejection false "/usr/local/bin" "helm"
        "4.9.0-0.okd-2021-11-28-035710" "4.9.10" "present" witness_net ⟨[], false, []⟩).2
      (by decide) (by decide)⟩

/-! ### C2 — the never-overwrite invariant -/

theorem keeps_bind {r : R} {f : ModState → R} {p : String} {v : Option FSNode}
    (h1 : R.keeps r p v) (h2 : ∀ s, FS.lookup s.fs p = v → R.keeps (f s) p v) :
    R.keeps (r.bind f) p v := by
  cases r with
  | ok s => exact h2 s h1
  | fail m s => exact h1

theorem download_file_keeps {s : ModState} {path url p : String} {v : FSNode}
    {net : Network} (h : FS.lookup s.fs p = some v) :
    R.keeps (download_file path url net s) p (some v) := by
  by_cases hp : p = path
  · subst hp
    simp [download_file, file_exists, h, R.keeps, R.state]
  · rw [download_file]
    by_cases hfe : file_exists s.fs path
    · simp [hfe, R.keeps, R.state, h]
    · simp only [hfe, if_false, Bool.false_eq_true]
      cases hnet : net url with
      | error exn => simp [R.keeps, R.state, h]
      | ok resp =>
        by_cases hst : resp.status = 200 <;>
          simp [hst, R.keeps, R.state, h, hp]

theorem lookup_extract_foldl (entries : List (String × String)) (acc : FS)
    (xdir p : String) (hpu : pathUnder xdir p = false) :
    FS.lookup
      (entries.foldl
        (fun acc e => FS.set acc (xdir ++ "/" ++ e.1) (.file (.raw e.2) 420)) acc) p =
    FS.lookup acc p := by
  induction entries generalizing acc with
  | nil => rfl
  | cons e rest ih =>
    rw [List.foldl_cons, ih]
    have hne : ¬ p = xdir ++ "/" ++ e.1 := by
      intro hc
      rw [hc] at hpu
      rw [pathUnder_extracted] at hpu
      exact Bool.true_eq_false.mp hpu
    simp [hne]

theorem extract_tar_gz_keeps {s : ModState} {tar xdir p : String} {v : FSNode}
    (h : FS.lookup s.fs p = some v) (hpu : pathUnder xdir p = false) :
    R.keeps (extract_tar_gz tar xdir s) p (some v) := by
  by_cases hp : p = xdir
  · subst hp
    simp [extract_tar_gz, file_exists, h, R.keeps, R.state]
  · rw [extract_tar_gz]
    by_cases hfe : file_exists s.fs xdir
    · simp [hfe, R.keeps, R.state, h]
    · simp only [hfe, if_false, Bool.false_eq_true]
      cases ht : FS.lookup s.fs tar with
      | none => simp [R.keeps, R.state, h]
      | some n =>
        cases n with
        | file c m =>
          cases c with
          | raw dat => simp [R.keeps, R.state, h]
          | tarGz entries =>
            simp only [R.keeps, R.state]
            rw [lookup_extract_foldl entries _ xdir p hpu]
            simp [h, hp]
        | dir => simp [R.keeps, R.state, h]
        | symlink t => simp [R.keeps, R.state, h]

theorem copy_executable_keeps {s : ModState} {src dest p : String} {v : FSNode}
    (h : FS.lookup s.fs p = some v) (hs : p ≠ src) :
    R.keeps (copy_executable src dest s) p (some v) := by
  by_cases hp : p = dest
  · subst hp
    simp [copy_executable, file_exists, h, R.keeps, R.state]
  · rw [copy_executable]
    by_cases hfe : file_exists s.fs dest
    · simp [hfe, R.keeps, R.state, h]
    · simp only [hfe, if_false, Bool.false_eq_true]
      cases hsrc : FS.lookup s.fs src with
      | none => simp [R.keeps, R.state, h]
      | some n => simp [R.keeps, R.state, h, hp, hs]

theorem delete_file_keeps {s : ModState} {path p : String} {v : FSNode}
    (h : FS.lookup s.fs p = some v) (hne : p ≠ path) (hpu : pathUnder path p = false) :
    R.keeps (delete_file path s) p (some v) := by
  rw [delete_file]
  cases hl : FS.lookup s.fs path with
  | none => simp [R.keeps, R.state, h]
  | some n =>
    cases n with
    | file c m => simp [R.keeps, R.state, h, hne]
    | dir => simp [R.keeps, R.state, h, hne, hpu]
    | symlink t => simp [R.keeps, R.state, h, hne]

theorem create_symlink_keeps {s : ModState} {link target p : String} {v : FSNode}
    (h : FS.lookup s.fs p = some v) (hne : p ≠ link) :
    R.keeps (create_symlink link target s) p (some v) := by
  rw [create_symlink]
  cases hl : FS.lookup s.fs link with
  | none =>
    by_cases hc : ("" : String) ≠ target <;>
      simp [symlink_update, hc, file_exists, hl, R.keeps, R.state, h, hne]
  | some n =>
    cases n with
    | file c m => simp [R.keeps, R.state, h]
    | dir => simp [R.keeps, R.state, h]
    | symlink t =>
      by_cases hc : t ≠ target <;>
        simp [symlink_update, hc, file_exists, hl, R.keeps, R.state, h, hne]

/-- One per-tool block never disturbs an existing path that is clear of the
scratch area and distinct from the block's symlink path — in particular it
never re-downloads, re-extracts or moves onto an existing destination. -/
theorem tool_section_keeps
    (sym : Bool) {s : ModState} {dest link tar xdir src url p : String} {v : FSNode}
    {net : Network}
    (h : FS.lookup s.fs p = some v)
    (hpc : PathClear p)
    (htm : tar ∈ scratch_paths) (hxm : xdir ∈ scratch_paths) (hsm : src ∈ scratch_paths)
    (hpl : p ≠ link) :
    R.keeps (tool_section sym dest link tar xdir src url net s) p (some v) := by
  obtain ⟨hpt, _, hput⟩ := hpc tar htm
  obtain ⟨hpx, _, hpux⟩ := hpc xdir hxm
  obtain ⟨hps, _, _⟩ := hpc src hsm
  rw [tool_section]
  apply keeps_bind
  · by_cases hfe : file_exists s.fs dest
    · simp only [hfe, Bool.not_true, Bool.false_eq_true, if_false]
      exact h
    · simp only [hfe, Bool.not_false, if_true]
      apply keeps_bind (download_file_keeps h)
      intro s1 h1
      apply keeps_bind (extract_tar_gz_keeps h1 hpux)
      intro s2 h2
      exact copy_executable_keeps h2 hps
  · intro s1 h1
    apply keeps_bind
    · cases sym with
      | true =>
        simp only [if_true]
        exact create_symlink_keeps h1 hpl
      | false =>
        simp only [Bool.false_eq_true, if_false]
        exact h1
    · intro s2 h2
      apply keeps_bind (delete_file_keeps h2 hpt hput)
      intro s3 h3
      exact delete_file_keeps h3 hpx hpux

/-- C2: a versioned artifact that already exists when a `state=present` run
starts is still intact afterwards, whatever the network does and whether the
run succeeds or aborts: its block short-circuits to the symlink step, no
download, extraction or move touches that destination, and the other blocks
write only their own paths.  (Holds for any `install_type`; an unrecognised
value behaves as `both`.) -/
theorem spec_c2_never_overwrite
    (sym : Bool) (d install_type okdR ocpR : String) (net : Network) (s : ModState)
    (vp : String) (v : FSNode)
    (hdd : DirDisjoint d okdR ocpR)
    (hvp : vp ∈ versioned_paths install_type d okdR ocpR)
    (hex : FS.lookup s.fs vp = some v) :
    FS.lookup (process_state sym d install_type okdR ocpR "present" net s).state.fs vp =
      some v := by
  have m1 : ("/tmp/okd_install.tar.gz" : String) ∈ scratch_paths := by decide
  have m2 : ("/tmp/okd_install" : String) ∈ scratch_paths := by decide
  have m3 : ("/tmp/okd_install/openshift-install" : String) ∈ scratch_paths := by decide
  have m4 : ("/tmp/openshift_install.tar.gz" : String) ∈ scratch_paths := by decide
  have m5 : ("/tmp/openshift_install" : String) ∈ scratch_paths := by decide
  have m6 : ("/tmp/openshift_install/openshift-install" : String) ∈ scratch_paths := by decide
  have m7 : ("/tmp/oc.tar.gz" : String) ∈ scratch_paths := by decide
  have m8 : ("/tmp/oc" : String) ∈ scratch_paths := by decide
  have m9 : ("/tmp/oc/oc" : String) ∈ scratch_paths := by decide
  show R.keeps (process_state sym d install_type okdR ocpR "present" net s) vp (some v)
  by_cases h1 : install_type = "okd"
  · subst h1
    simp [versioned_paths] at hvp
    rw [process_state]
    simp only [if_pos rfl]
    rcases hvp with rfl | rfl
    · apply keeps_bind
        (tool_section_keeps sym hex (hdd _ (by simp [managed_paths]))
          m1 m2 m3 (path_ne_okdv_okdl d okdR))
      intro s1 h1
      exact tool_section_keeps sym h1 (hdd _ (by simp [managed_paths]))
        m7 m8 m9 (path_ne_okdv_ocl d okdR)
    · apply keeps_bind
        (tool_section_keeps sym hex (hdd _ (by simp [managed_paths]))
          m1 m2 m3 (path_ne_ocv_okdl d okdR))
      intro s1 h1
      exact tool_section_keeps sym h1 (hdd _ (by simp [managed_paths]))
        m7 m8 m9 (path_ne_ocv_ocl d okdR)
  · by_cases h2 : install_type = "ocp"
    · subst h2
      simp [versioned_paths] at hvp
      rw [process_state]
      simp only [if_pos rfl, if_neg (show ¬ ("ocp" : String) = "okd" by decide)]
      rcases hvp with rfl | rfl
      · apply keeps_bind
          (tool_section_keeps sym hex (hdd _ (by simp [managed_paths]))
            m4 m5 m6 (path_ne_osv_osl d ocpR))
        intro s1 h1
        exact tool_section_keeps sym h1 (hdd _ (by simp [managed_paths]))
          m7 m8 m9 (path_ne_osv_ocl d ocpR)
      · apply keeps_bind
          (tool_section_keeps sym hex (hdd _ (by simp [managed_paths]))
            m4 m5 m6 (path_ne_ocv_osl d ocpR))
        intro s1 h1
        exact tool_section_keeps sym h1 (hdd _ (by simp [managed_paths]))
          m7 m8 m9 (path_ne_ocv_ocl d ocpR)
    · simp [versioned_paths, h1, h2] at hvp
      rw [process_state]
      simp only [if_pos rfl, if_neg h1, if_neg h2]
      rcases hvp with rfl | rfl | rfl
      · apply keeps_bind
          (tool_section_keeps sym hex (hdd _ (by simp [managed_paths]))
            m1 m2 m3 (path_ne_okdv_okdl d okdR))
        intro s1 h1
        apply keeps_bind
          (tool_section_keeps sym h1 (hdd _ (by simp [managed_paths]))
            m4 m5 m6 (path_ne_okdv_osl d okdR))
        intro s2 h2
        exact tool_section_keeps sym h2 (hdd _ (by simp [managed_paths]))
          m7 m8 m9 (path_ne_okdv_ocl d okdR)
      · apply keeps_bind
          (tool_section_keeps sym hex (hdd _ (by simp [managed_paths]))
            m1 m2 m3 (path_ne_osv_okdl d ocpR))
        intro s1 h1
        apply keeps_bind
          (tool_section_keeps sym h1 (hdd _ (by simp [managed_paths]))
            m4 m5 m6 (path_ne_osv_osl d ocpR))
        intro s2 h2
        exact tool_section_keeps sym h2 (hdd _ (by simp [managed_paths]))
          m7 m8 m9 (path_ne_osv_ocl d ocpR)
      · apply keeps_bind
          (tool_section_keeps sym hex (hdd _ (by simp [managed_paths]))
            m1 m2 m3 (path_ne_ocv_okdl d ocpR))
        intro s1 h1
        apply keeps_bind
          (tool_section_keeps sym h1 (hdd _ (by simp [managed_paths]))
            m4 m5 m6 (path_ne_ocv_osl d ocpR))
        intro s2 h2
        exact tool_section_keeps sym h2 (hdd _ (by simp [managed_paths]))
          m7 m8 m9 (path_ne_ocv_ocl d ocpR)

/-- Witness for C2: an existing versioned `okd-install` binary survives an
`install_type=okd` present run that installs the missing `oc` tool. -/
theorem spec_c2_witness :
    DirDisjoint "/usr/local/bin" "4.9.0-0.okd-2021-11-28-035710" "4.9.10" ∧
    ("/usr/local/bin/okd-install-4.9.0-0.okd-2021-11-28-035710" ∈
      versioned_paths "okd" "/usr/local/bin" "4.9.0-0.okd-2021-11-28-035710" "4.9.10") ∧
    FS.lookup
      (process_state false "/usr/local/bin" "okd" "4.9.0-0.okd-2021-11-28-035710" "4.9.10"
          "present" witness_net
          ⟨[("/usr/local/bin/okd-install-4.9.0-0.okd-2021-11-28-035710",
              FSNode.file (.raw "old-binary") 509)], false, []⟩).state.fs
      "/usr/local/bin/okd-install-4.9.0-0.okd-2021-11-28-035710" =
      some (FSNode.file (.raw "old-binary") 509) :=
  ⟨by decide, by decide,
    spec_c2_never_overwrite false "/usr/local/bin" "okd" "4.9.0-0.okd-2021-11-28-035710"
      "4.9.10" witness_net
      ⟨[("/usr/local/bin/okd-install-4.9.0-0.okd-2021-11-28-035710",
          FSNode.file (.raw "old-binary") 509)], false, []⟩
      "/usr/local/bin/okd-install-4.9.0-0.okd-2021-11-28-035710"
      (FSNode.file (.raw "old-binary") 509)
      (by decide) (by decide) (by decide)⟩

/-! ### C4 — round trip: install then uninstall -/

theorem AbsentStep.comp {s : ModState} {r : R} {f : ModState → R}
    {c1 c2 : List String}
    (h1 : AbsentStep s r c1) (h2 : ∀ s1, AbsentStep s1 (f s1) c2) :
    AbsentStep s (r.bind f) (c1 ++ c2) := by
  obtain ⟨s1, e1, q1, pres1, clr1⟩ := h1
  obtain ⟨s2, e2, q2, pres2, clr2⟩ := h2 s1
  refine ⟨s2, ?_, ?_, ?_, ?_⟩
  · rw [e1, R.bind, e2]
  · rw [q2, q1]
  · intro q hq
    exact pres2 q (pres1 q hq)
  · intro p hp
    rcases List.mem_append.mp hp with hp | hp
    · exact pres2 p (clr1 p hp)
    · exact clr2 p hp

theorem delete_file_absentStep (p : String) (s : ModState) :
    AbsentStep s (delete_file p s) [p] := by
  rw [delete_file]
  cases hl : FS.lookup s.fs p with
  | none =>
    exact ⟨s, rfl, rfl, fun q hq => hq, by simp [hl]⟩
  | some n =>
    cases n with
    | file c m =>
      refine ⟨_, rfl, rfl, ?_, ?_⟩
      · intro q hq
        simp [hq]
      · simp
    | dir =>
      refine ⟨_, rfl, rfl, ?_, ?_⟩
      · intro q hq
        simp [hq]
      · simp
    | symlink t =>
      refine ⟨_, rfl, rfl, ?_, ?_⟩
      · intro q hq
        simp [hq]
      · simp

theorem ok_absentStep (s : ModState) : AbsentStep s (.ok s) [] :=
  ⟨s, rfl, rfl, fun _ hq => hq, by simp⟩

/-- The `state=absent` arm of `process_state` always succeeds without
touching the network; it removes the paths it targets under the given
`install_type` and symlink flag, and never resurrects an absent path. -/
theorem absent_run_clears
    (sym : Bool) (d install_type okdR ocpR : String) (net : Network) (s : ModState)
    (hit : install_type = "okd" ∨ install_type = "ocp" ∨ install_type = "both") :
    AbsentStep s (process_state sym d install_type okdR ocpR "absent" net s)
      ((if install_type = "okd" ∨ install_type = "both" then
          [("/tmp/okd_install.tar.gz" : String), "/tmp/okd_install",
            d ++ "/okd-install-" ++ okdR, d ++ "/oc-" ++ okdR] ++
          (if sym = true then [d ++ "/okd-install", d ++ "/oc"] else [])
        else []) ++
       ((if install_type = "ocp" ∨ install_type = "both" then
          [("/tmp/openshift_install.tar.gz" : String), "/tmp/openshift_install",
            d ++ "/openshift-install-" ++ ocpR, d ++ "/oc-" ++ ocpR] ++
          (if sym = true then [d ++ "/openshift-install", d ++ "/oc"] else [])
        else []) ++
       [("/tmp/oc.tar.gz" : String), "/tmp/oc"])) := by
  have D : ∀ (p : String) (s1 : ModState), AbsentStep s1 (delete_file p s1) [p] :=
    delete_file_absentStep
  rcases hit with rfl | rfl | rfl <;> cases sym
  -- okd, sym = false
  · rw [process_state]
    simp only [R.bind]
    simp
    exact AbsentStep.comp
      (AbsentStep.comp (D _ s) (fun s2 =>
        AbsentStep.comp (D _ s2) (fun s3 =>
        AbsentStep.comp (D _ s3) (fun s4 =>
        AbsentStep.comp (D _ s4) (fun s5 => ok_absentStep s5)))))
      (fun s6 => AbsentStep.comp (D _ s6) (fun s7 => D _ s7))
  -- okd, sym = true
  · rw [process_state]
    simp only [R.bind]
    simp
    exact AbsentStep.comp
      (AbsentStep.comp (D _ s) (fun s2 =>
        AbsentStep.comp (D _ s2) (fun s3 =>
        AbsentStep.comp (D _ s3) (fun s4 =>
        AbsentStep.comp (D _ s4) (fun s5 =>
        AbsentStep.comp (D _ s5) (fun s6 => D _ s6))))))
      (fun s7 => AbsentStep.comp (D _ s7) (fun s8 => D _ s8))
  -- ocp, sym = false
  · rw [process_state]
    simp only [R.bind]
    simp
    exact AbsentStep.comp
      (AbsentStep.comp (D _ s) (fun s2 =>
        AbsentStep.comp (D _ s2) (fun s3 =>
        AbsentStep.comp (D _ s3) (fun s4 =>
        AbsentStep.comp (D _ s4) (fun s5 => ok_absentStep s5)))))
      (fun s6 => AbsentStep.comp (D _ s6) (fun s7 => D _ s7))
  -- ocp, sym = true
  · rw [process_state]
    simp only [R.bind]
    simp
    exact AbsentStep.comp
      (AbsentStep.comp (D _ s) (fun s2 =>
        AbsentStep.comp (D _ s2) (fun s3 =>
        AbsentStep.comp (D _ s3) (fun s4 =>
        AbsentStep.comp (D _ s4) (fun s5 =>
        AbsentStep.comp (D _ s5) (fun s6 => D _ s6))))))
      (fun s7 => AbsentStep.comp (D _ s7) (fun s8 => D _ s8))
  -- both, sym = false
  · rw [process_state]
    simp only [R.bind]
    simp
    exact AbsentStep.comp
      (AbsentStep.comp (D _ s) (fun s2 =>
        AbsentStep.comp (D _ s2) (fun s3 =>
        AbsentStep.comp (D _ s3) (fun s4 =>
        AbsentStep.comp (D _ s4) (fun s5 => ok_absentStep s5)))))
      (fun s6 => AbsentStep.comp
        (AbsentStep.comp (D _ s6) (fun s7 =>
          AbsentStep.comp (D _ s7) (fun s8 =>
          AbsentStep.comp (D _ s8) (fun s9 =>
          AbsentStep.comp (D _ s9) (fun s10 => ok_absentStep s10)))))
        (fun s11 => AbsentStep.comp (D _ s11) (fun s12 => D _ s12)))
  -- both, sym = true
  · rw [process_state]
    simp only [R.bind]
    simp
    exact AbsentStep.comp
      (AbsentStep.comp (D _ s) (fun s2 =>
        AbsentStep.comp (D _ s2) (fun s3 =>
        AbsentStep.comp (D _ s3) (fun s4 =>
        AbsentStep.comp (D _ s4) (fun s5 =>
        AbsentStep.comp (D _ s5) (fun s6 => D _ s6))))))
      (fun s7 => AbsentStep.comp
        (AbsentStep.comp (D _ s7) (fun s8 =>
          AbsentStep.comp (D _ s8) (fun s9 =>
          AbsentStep.comp (D _ s9) (fun s10 =>
          AbsentStep.comp (D _ s10) (fun s11 =>
          AbsentStep.comp (D _ s11) (fun s12 => D _ s12))))))
        (fun s13 => AbsentStep.comp (D _ s13) (fun s14 => D _ s14)))

/-- C4: for every input (install type among the module's choices, releases,
directory, symlink flag), starting from a filesystem with nothing installed,
with the executable directory clear of the scratch area and the network
serving valid archives, installing (`state=present`) and then uninstalling
(`state=absent`) with the same parameters leaves no versioned artifact, no
unversioned symlink, and no scratch archive or scratch extraction directory
on disk. -/
theorem spec_c4_round_trip
    (sym : Bool) (d install_type okdR ocpR cA cB cC cD rA rB rC rD : String)
    (net : Network)
    (hit : install_type = "okd" ∨ install_type = "ocp" ∨ install_type = "both")
    (hdd : DirDisjoint d okdR ocpR)
    (hn1 : net (okd_install_tar_gz_url okdR) =
      .ok ⟨200, rA, .tarGz [("openshift-install", cA)]⟩)
    (hn2 : net (okd_oc_tar_gz_url okdR) = .ok ⟨200, rB, .tarGz [("oc", cB)]⟩)
    (hn3 : net (openshift_install_tar_gz_url ocpR) =
      .ok ⟨200, rC, .tarGz [("openshift-install", cC)]⟩)
    (hn4 : net (openshift_oc_install_tar_gz_url ocpR) =
      .ok ⟨200, rD, .tarGz [("oc", cD)]⟩) :
    ∃ fs1 urls s2,
      process_state sym d install_type okdR ocpR "present" net ⟨[], false, []⟩ =
        .ok ⟨fs1, true, urls⟩ ∧
      process_state sym d install_type okdR ocpR "absent" net ⟨fs1, false, []⟩ =
        .ok s2 ∧
      s2.requests = [] ∧
      (∀ p ∈ managed_paths d okdR ocpR, FS.lookup s2.fs p = none) ∧
      (∀ p ∈ scratch_paths, FS.lookup s2.fs p = none) := by
  have m1 : ("/tmp/okd_install.tar.gz" : String) ∈ scratch_paths := by decide
  have m2 : ("/tmp/okd_install" : String) ∈ scratch_paths := by decide
  have m4 : ("/tmp/openshift_install.tar.gz" : String) ∈ scratch_paths := by decide
  have m5 : ("/tmp/openshift_install" : String) ∈ scratch_paths := by decide
  have m7 : ("/tmp/oc.tar.gz" : String) ∈ scratch_paths := by decide
  have m8 : ("/tmp/oc" : String) ∈ scratch_paths := by decide
  have pcOkdV : PathClear (d ++ "/okd-install-" ++ okdR) := hdd _ (by simp [managed_paths])
  have pcOkdL : PathClear (d ++ "/okd-install") := hdd _ (by simp [managed_paths])
  have pcOsV : PathClear (d ++ "/openshift-install-" ++ ocpR) := hdd _ (by simp [managed_paths])
  have pcOsL : PathClear (d ++ "/openshift-install") := hdd _ (by simp [managed_paths])
  have pcOcVk : PathClear (d ++ "/oc-" ++ okdR) := hdd _ (by simp [managed_paths])
  have pcOcVp : PathClear (d ++ "/oc-" ++ ocpR) := hdd _ (by simp [managed_paths])
  have pcOcL : PathClear (d ++ "/oc") := hdd _ (by simp [managed_paths])
  rcases hit with rfl | rfl | rfl
  · obtain ⟨fs1, e1, char1⟩ :=
      present_okd_fresh sym (s := ⟨[], false, []⟩) hdd (fun _ _ => rfl) (fun _ _ => rfl)
        hn1 hn2
    have hsc1 : ∀ p ∈ scratch_paths, FS.lookup fs1 p = none := by
      intro p hp
      rw [char1]
      have f1 := (pcOkdV p hp).2.1
      have f2 := (pcOkdL p hp).2.1
      have f3 := (pcOcVk p hp).2.1
      have f4 := (pcOcL p hp).2.1
      fin_cases hp <;> simp [f1, f2, f3, f4, FS.lookup]
    obtain ⟨s2, e2, q2, pres2, clr2⟩ :=
      absent_run_clears sym d "okd" okdR ocpR net ⟨fs1, false, []⟩ (Or.inl rfl)
    refine ⟨fs1, _, s2, e1, e2, q2, ?_, fun p hp => pres2 _ (hsc1 p hp)⟩
    intro p hp
    fin_cases hp
    · exact clr2 _ (by simp)
    · exact clr2 _ (by simp)
    · refine pres2 _ ?_
      rw [char1]
      simp [PathClear.scratch_clause_false pcOsV m7 m8,
        PathClear.scratch_clause_false pcOsV m1 m2, FS.lookup]
    · by_cases hoc : d ++ "/oc-" ++ ocpR = d ++ "/oc-" ++ okdR
      · rw [hoc]
        exact clr2 _ (by simp)
      · refine pres2 _ ?_
        rw [char1]
        simp [hoc, PathClear.scratch_clause_false pcOcVp m7 m8,
          PathClear.scratch_clause_false pcOcVp m1 m2, FS.lookup]
    · cases sym with
      | true => exact clr2 _ (by simp)
      | false =>
        refine pres2 _ ?_
        rw [char1]
        simp [PathClear.scratch_clause_false pcOkdL m7 m8,
          PathClear.scratch_clause_false pcOkdL m1 m2, FS.lookup]
    · cases sym with
      | true => exact clr2 _ (by simp)
      | false =>
        refine pres2 _ ?_
        rw [char1]
        simp [PathClear.scratch_clause_false pcOcL m7 m8,
          PathClear.scratch_clause_false pcOcL m1 m2, FS.lookup]
    · refine pres2 _ ?_
      rw [char1]
      simp [PathClear.scratch_clause_false pcOsL m7 m8,
        PathClear.scratch_clause_false pcOsL m1 m2, FS.lookup]
  · obtain ⟨fs1, e1, char1⟩ :=
      present_ocp_fresh sym (s := ⟨[], false, []⟩) hdd (fun _ _ => rfl) (fun _ _ => rfl)
        hn3 hn4
    have hsc1 : ∀ p ∈ scratch_paths, FS.lookup fs1 p = none := by
      intro p hp
      rw [char1]
      have f1 := (pcOsV p hp).2.1
      have f2 := (pcOsL p hp).2.1
      have f3 := (pcOcVp p hp).2.1
      have f4 := (pcOcL p hp).2.1
      fin_cases hp <;> simp [f1, f2, f3, f4, FS.lookup]
    obtain ⟨s2, e2, q2, pres2, clr2⟩ :=
      absent_run_clears sym d "ocp" okdR ocpR net ⟨fs1, false, []⟩ (Or.inr (Or.inl rfl))
    refine ⟨fs1, _, s2, e1, e2, q2, ?_, fun p hp => pres2 _ (hsc1 p hp)⟩
    intro p hp
    fin_cases hp
    · refine pres2 _ ?_
      rw [char1]
      simp [PathClear.scratch_clause_false pcOkdV m7 m8,
        PathClear.scratch_clause_false pcOkdV m4 m5, FS.lookup]
    · by_cases hoc : d ++ "/oc-" ++ okdR = d ++ "/oc-" ++ ocpR
      · rw [hoc]
        exact clr2 _ (by simp)
      · refine pres2 _ ?_
        rw [char1]
        simp [hoc, PathClear.scratch_clause_false pcOcVk m7 m8,
          PathClear.scratch_clause_false pcOcVk m4 m5, FS.lookup]
    · exact clr2 _ (by simp)
    · exact clr2 _ (by simp)
    · refine pres2 _ ?_
      rw [char1]
      simp [PathClear.scratch_clause_false pcOkdL m7 m8,
        PathClear.scratch_clause_false pcOkdL m4 m5, FS.lookup]
    · cases sym with
      | true => exact clr2 _ (by simp)
      | false =>
        refine pres2 _ ?_
        rw [char1]
        simp [PathClear.scratch_clause_false pcOcL m7 m8,
          PathClear.scratch_clause_false pcOcL m4 m5, FS.lookup]
    · cases sym with
      | true => exact clr2 _ (by simp)
      | false =>
        refine pres2 _ ?_
        rw [char1]
        simp [PathClear.scratch_clause_false pcOsL m7 m8,
          PathClear.scratch_clause_false pcOsL m4 m5, FS.lookup]
  · obtain ⟨fs1, e1, char1⟩ :=
      present_both_fresh sym (s := ⟨[], false, []⟩) hdd (fun _ _ => rfl) (fun _ _ => rfl)
        hn1 hn3 hn4
    have hsc1 : ∀ p ∈ scratch_paths, FS.lookup fs1 p = none := by
      intro p hp
      rw [char1]
      have f1 := (pcOkdV p hp).2.1
      have f2 := (pcOkdL p hp).2.1
      have f3 := (pcOsV p hp).2.1
      have f4 := (pcOsL p hp).2.1
      have f5 := (pcOcVp p hp).2.1
      have f6 := (pcOcL p hp).2.1
      fin_cases hp <;> simp [f1, f2, f3, f4, f5, f6, FS.lookup]
    obtain ⟨s2, e2, q2, pres2, clr2⟩ :=
      absent_run_clears sym d "both" okdR ocpR net ⟨fs1, false, []⟩ (Or.inr (Or.inr rfl))
    refine ⟨fs1, _, s2, e1, e2, q2, ?_, fun p hp => pres2 _ (hsc1 p hp)⟩
    intro p hp
    fin_cases hp
    · exact clr2 _ (by simp)
    · exact clr2 _ (by simp)
    · exact clr2 _ (by simp)
    · exact clr2 _ (by simp)
    · cases sym with
      | true => exact clr2 _ (by simp)
      | false =>
        refine pres2 _ ?_
        rw [char1]
        simp [PathClear.scratch_clause_false pcOkdL m7 m8,
          PathClear.scratch_clause_false pcOkdL m4 m5,
          PathClear.scratch_clause_false pcOkdL m1 m2, FS.lookup]
    · cases sym with
      | true => exact clr2 _ (by simp)
      | false =>
        refine pres2 _ ?_
        rw [char1]
        simp [PathClear.scratch_clause_false pcOcL m7 m8,
          PathClear.scratch_clause_false pcOcL m4 m5,
          PathClear.scratch_clause_false pcOcL m1 m2, FS.lookup]
    · cases sym with
      | true => exact clr2 _ (by simp)
      | false =>
        refine pres2 _ ?_
        rw [char1]
        simp [PathClear.scratch_clause_false pcOsL m7 m8,
          PathClear.scratch_clause_false pcOsL m4 m5,
          PathClear.scratch_clause_false pcOsL m1 m2, FS.lookup]

/-- Witness for C4 at a concrete input: install then uninstall of the OKD
tools with symlinks in `/usr/local/bin`. -/
theorem spec_c4_witness :
    DirDisjoint "/usr/local/bin" "4.9.0-0.okd-2021-11-28-035710" "4.9.10" ∧
    (∃ fs1 urls s2,
      process_state true "/usr/local/bin" "okd" "4.9.0-0.okd-2021-11-28-035710" "4.9.10"
          "present" witness_net ⟨[], false, []⟩ = .ok ⟨fs1, true, urls⟩ ∧
      process_state true "/usr/local/bin" "okd" "4.9.0-0.okd-2021-11-28-035710" "4.9.10"
          "absent" witness_net ⟨fs1, false, []⟩ = .ok s2 ∧
      s2.requests = [] ∧
      (∀ p ∈ managed_paths "/usr/local/bin" "4.9.0-0.okd-2021-11-28-035710" "4.9.10",
        FS.lookup s2.fs p = none) ∧
      (∀ p ∈ scratch_paths, FS.lookup s2.fs p = none)) :=
  ⟨by decide,
    spec_c4_round_trip true "/usr/local/bin" "okd" "4.9.0-0.okd-2021-11-28-035710" "4.9.10"
      "okd-installer-bytes" "okd-oc-bytes" "ocp-installer-bytes" "ocp-oc-bytes"
      "OK" "OK" "OK" "OK" witness_net (Or.inl rfl) (by decide)
      (by decide) (by decide) (by decide) (by decide)⟩
